import Mathlib

/-!
Verification of the Scoot queue/population/promotion engine.

Shallow embedding of:
- src/server/game-logic/game-population.ts (player moves, team assignment, populate)
- src/unnamed/part_016 (DatabaseStorage: createGame, updateGameScore,
  determinePromotionType, createCheckin)
- src/server/routes.ts (the PATCH /api/games/:id/score winning-team computation)

JavaScript arrays are embedded as Lean lists.  An out-of-range JS index write
extends the array with holes; `List.set` out of range is a no-op instead.  The
two semantics agree whenever the referenced indices are in range, in particular
on every snapshot whose two teams hold exactly `maxPlayersPerTeam` players each,
which is the regime of every theorem below that inspects a team slot.
JS floating point arithmetic on the values occurring here (integers and halves)
is exact, so skill scores are embedded as rationals.
-/

namespace Scoot

/-- Embeds `PlayerStatus` from src/server/game-logic/types (values used by the code). -/
inductive PlayerStatus where
  | AVAILABLE
  | ASSIGNED
  | ACTIVE
  | BENCHED
deriving DecidableEq, Repr

/-- Embeds `PopulationState` from src/server/game-logic/types. -/
inductive PopulationState where
  | WAITING_FOR_PLAYERS
  | TEAM_ASSIGNMENT
  | COURT_SELECTION
  | GAME_CREATION
  | COMPLETE
deriving DecidableEq, Repr

/-- Embeds `MoveType` from src/server/game-logic/types. -/
inductive MoveType where
  | CHECKOUT
  | BUMP
  | HORIZONTAL_SWAP
  | VERTICAL_SWAP
deriving DecidableEq, Repr

/-- Embeds `Player` as used by game-population.ts. -/
structure Player where
  id : Int
  username : String
  gamesPlayed : Int
  consecutiveLosses : Int
  birthYear : Option Int
  isOG : Bool
  status : PlayerStatus
deriving DecidableEq, Repr

/-- Embeds `Team` as used by game-population.ts. -/
structure Team where
  players : List Player
  avgSkillRating : Rat
  totalGamesPlayed : Int
  ogCount : Nat
deriving DecidableEq, Repr

/-- Embeds `GameConfig` from src/server/game-logic/types. -/
structure GameConfig where
  minPlayersPerTeam : Nat
  maxPlayersPerTeam : Nat
  maxConsecutiveLosses : Nat
  courtPreference : List String
deriving DecidableEq, Repr

/-- Embeds `GameState` (the snapshot the engine operates on). -/
structure GameState where
  currentState : PopulationState
  availablePlayers : List Player
  teamA : Team
  teamB : Team
  selectedCourt : Option String
  config : GameConfig
deriving DecidableEq, Repr

/-- Embeds `MoveResult` from src/server/game-logic/types. -/
structure MoveResult where
  success : Bool
  message : Option String
  updatedState : GameState
deriving DecidableEq, Repr

/-- Embeds `CURRENT_YEAR` of game-population.ts: `new Date().getFullYear()` at module
load; it is a fixed constant during any run and no claim depends on its value. -/
def CURRENT_YEAR : Int := 2025

/-- Embeds `OG_AGE_THRESHOLD` in game-population.ts. -/
def OG_AGE_THRESHOLD : Int := 75

/-- Embeds `isOGPlayer` from game-population.ts; `!birthYear` is true for both a
missing birth year and the (falsy) year 0. -/
def isOGPlayer (birthYear : Option Int) : Bool :=
  match birthYear with
  | none => false
  | some y => if y = 0 then false else decide (CURRENT_YEAR - y ≥ OG_AGE_THRESHOLD)

/-- Embeds `countOGPlayers` from game-population.ts. -/
def countOGPlayers (players : List Player) : Nat :=
  (players.filter (fun p => isOGPlayer p.birthYear)).length

/-- Embeds `initializeGameState` from game-population.ts. -/
def initializeGameState (config : GameConfig) : GameState :=
  { currentState := PopulationState.WAITING_FOR_PLAYERS
    availablePlayers := []
    teamA := { players := [], avgSkillRating := 0, totalGamesPlayed := 0, ogCount := 0 }
    teamB := { players := [], avgSkillRating := 0, totalGamesPlayed := 0, ogCount := 0 }
    selectedCourt := none
    config := config }

/-- Embeds `Array.prototype.findIndex` for a player id: index of the first player
with the given id (`none` embeds -1). -/
def findIdxP (playerId : Int) : List Player → Option Nat
  | [] => none
  | p :: ps => if p.id = playerId then some 0 else (findIdxP playerId ps).map (· + 1)

/-- Embeds `findPlayerIndex` from game-population.ts: flattened index over
Team A, then Team B offset by Team A's actual length, then the next-up list
offset by both actual lengths.  The TS function returns -1 when the player is
absent; that sentinel is embedded as `none`. -/
def findPlayerIndex (state : GameState) (playerId : Int) : Option Nat :=
  match findIdxP playerId state.teamA.players with
  | some i => some i
  | none =>
    match findIdxP playerId state.teamB.players with
    | some i => some (i + state.teamA.players.length)
    | none =>
      match findIdxP playerId state.availablePlayers with
      | some i => some (i + state.teamA.players.length + state.teamB.players.length)
      | none => none

/-- Embeds `handleCheckout` from game-population.ts. -/
def handleCheckout (state : GameState) (playerIndex : Nat) : MoveResult :=
  let teamSize := state.config.maxPlayersPerTeam
  if playerIndex ≥ teamSize * 2 then
    -- Next Up player: remove from availablePlayers (slice(0,i) ++ slice(i+1))
    let availableIndex := playerIndex - teamSize * 2
    { success := true
      message := none
      updatedState := { state with
        availablePlayers :=
          state.availablePlayers.take availableIndex ++
          state.availablePlayers.drop (availableIndex + 1) } }
  else
    match state.availablePlayers with
    | [] =>
      { success := false
        message := some "No available players for replacement"
        updatedState := state }
    | nextPlayer :: rest =>
      if playerIndex < teamSize then
        let newPlayers := state.teamA.players.set playerIndex nextPlayer
        { success := true
          message := none
          updatedState := { state with
            teamA := { state.teamA with
              players := newPlayers
              ogCount := countOGPlayers newPlayers }
            availablePlayers := rest } }
      else
        let teamBIndex := playerIndex - teamSize
        let newPlayers := state.teamB.players.set teamBIndex nextPlayer
        { success := true
          message := none
          updatedState := { state with
            teamB := { state.teamB with
              players := newPlayers
              ogCount := countOGPlayers newPlayers }
            availablePlayers := rest } }

/-- Embeds `handleBump` from game-population.ts. -/
def handleBump (state : GameState) (playerIndex : Nat) : MoveResult :=
  let teamSize := state.config.maxPlayersPerTeam
  if playerIndex ≥ teamSize * 2 then
    let availableIndex := playerIndex - teamSize * 2
    if availableIndex ≥ state.availablePlayers.length - 1 then
      { success := false
        message := some "No player below to bump with"
        updatedState := state }
    else
      match state.availablePlayers.get? availableIndex,
            state.availablePlayers.get? (availableIndex + 1) with
      | some a, some b =>
        { success := true
          message := none
          updatedState := { state with
            availablePlayers :=
              (state.availablePlayers.set availableIndex b).set (availableIndex + 1) a } }
      | _, _ =>
        -- unreachable: the length guard puts both indices in range
        { success := true, message := none, updatedState := state }
  else
    match state.availablePlayers with
    | [] =>
      { success := false
        message := some "No available players to bump with"
        updatedState := state }
    | bumpPlayer :: rest =>
      if playerIndex < teamSize then
        match state.teamA.players.get? playerIndex with
        | some temp =>
          let newPlayers := state.teamA.players.set playerIndex bumpPlayer
          { success := true
            message := none
            updatedState := { state with
              teamA := { state.teamA with
                players := newPlayers
                ogCount := countOGPlayers newPlayers }
              availablePlayers := temp :: rest } }
        | none =>
          -- JS would write past the array end; unreachable on full teams
          { success := true, message := none, updatedState := state }
      else
        match state.teamB.players.get? (playerIndex - teamSize) with
        | some temp =>
          let newPlayers := state.teamB.players.set (playerIndex - teamSize) bumpPlayer
          { success := true
            message := none
            updatedState := { state with
              teamB := { state.teamB with
                players := newPlayers
                ogCount := countOGPlayers newPlayers }
              availablePlayers := temp :: rest } }
        | none =>
          { success := true, message := none, updatedState := state }

/-- Embeds `handleHorizontalSwap` from game-population.ts: the `!players[i]` existence
checks are embedded as the `get?` match. -/
def handleHorizontalSwap (state : GameState) (playerIndex : Nat) : MoveResult :=
  let teamSize := state.config.maxPlayersPerTeam
  if playerIndex ≥ teamSize * 2 then
    { success := false
      message := some "Can only swap players on teams"
      updatedState := state }
  else
    let swapIndex := if playerIndex < teamSize then playerIndex else playerIndex - teamSize
    match state.teamA.players.get? swapIndex, state.teamB.players.get? swapIndex with
    | some a, some b =>
      let newA := state.teamA.players.set swapIndex b
      let newB := state.teamB.players.set swapIndex a
      { success := true
        message := none
        updatedState := { state with
          teamA := { state.teamA with players := newA, ogCount := countOGPlayers newA }
          teamB := { state.teamB with players := newB, ogCount := countOGPlayers newB } } }
    | _, _ =>
      { success := false
        message := some "Invalid swap positions"
        updatedState := state }

/-- Embeds `handleVerticalSwap` from game-population.ts. -/
def handleVerticalSwap (state : GameState) (playerIndex : Nat) : MoveResult :=
  let teamSize := state.config.maxPlayersPerTeam
  if playerIndex < teamSize ∨ playerIndex ≥ teamSize * 2 then
    { success := false
      message := some "Can only swap Away team players vertically"
      updatedState := state }
  else
    let currentIndex := playerIndex - teamSize
    let nextIndex := (currentIndex + 1) % teamSize
    match state.teamB.players.get? currentIndex, state.teamB.players.get? nextIndex with
    | some a, some b =>
      let newB := (state.teamB.players.set currentIndex b).set nextIndex a
      { success := true
        message := none
        updatedState := { state with
          teamB := { state.teamB with players := newB, ogCount := countOGPlayers newB } } }
    | _, _ =>
      { success := false
        message := some "Invalid swap positions"
        updatedState := state }

/-- Embeds `movePlayer` from game-population.ts.  The JSON deep clone made before
dispatch is the identity under value semantics. -/
def movePlayer (state : GameState) (playerId : Int) (moveType : MoveType) : MoveResult :=
  match findPlayerIndex state playerId with
  | none =>
    { success := false
      message := some "Player not found"
      updatedState := state }
  | some playerIndex =>
    match moveType with
    | MoveType.CHECKOUT => handleCheckout state playerIndex
    | MoveType.BUMP => handleBump state playerIndex
    | MoveType.HORIZONTAL_SWAP => handleHorizontalSwap state playerIndex
    | MoveType.VERTICAL_SWAP => handleVerticalSwap state playerIndex

/-- Embeds `calculatePlayerSkill` from game-population.ts:
`gamesPlayed - consecutiveLosses * 0.5`, exact in the rationals. -/
def calculatePlayerSkill (player : Player) : Rat :=
  (player.gamesPlayed : Rat) - (player.consecutiveLosses : Rat) * (1 / 2)

/-- The JS sort comparator of `handleTeamAssignment`:
`skill(b) - skill(a)` when nonzero, else `b.gamesPlayed - a.gamesPlayed`. -/
def playerCmp (a b : Player) : Rat :=
  if calculatePlayerSkill b - calculatePlayerSkill a ≠ 0 then
    calculatePlayerSkill b - calculatePlayerSkill a
  else
    ((b.gamesPlayed : Rat) - (a.gamesPlayed : Rat))

/-- Holds when `a` may precede `b` under the comparator (comparator value ≤ 0). -/
def playerLe (a b : Player) : Bool := decide (playerCmp a b ≤ 0)

/-- Stable insertion for a boolean "may precede" relation: `x` is placed before
the first element `y` with `le x y`.  A stable sort built from this agrees with
the JS `Array.prototype.sort` (stable per ES2019) on any consistent comparator. -/
def insertS {α : Type} (le : α → α → Bool) (x : α) : List α → List α
  | [] => [x]
  | y :: ys => if le x y then x :: y :: ys else y :: insertS le x ys

/-- Stable sort by repeated insertion (embeds the JS comparator sort). -/
def sortJS {α : Type} (le : α → α → Bool) : List α → List α
  | [] => []
  | x :: xs => insertS le x (sortJS le xs)

/-- The `forEach` alternating distribution of `handleTeamAssignment`:
elements at even running index go to the first list, odd to the second. -/
def distributeGo {α : Type} : Nat → List α → List α × List α
  | _, [] => ([], [])
  | i, x :: xs =>
    let r := distributeGo (i + 1) xs
    if i % 2 = 0 then (x :: r.1, r.2) else (r.1, x :: r.2)

/-- Elements of a list at even positions, in order. -/
def evensL {α : Type} : List α → List α
  | [] => []
  | [x] => [x]
  | x :: _ :: xs => x :: evensL xs

/-- Elements of a list at odd positions, in order. -/
def oddsL {α : Type} : List α → List α
  | [] => []
  | [_] => []
  | _ :: y :: xs => y :: oddsL xs

/-- Embeds `createTeam` from game-population.ts.  The average of an empty team is
`0/0`: `NaN` in JS, `0` in the rationals; no claim touches that value. -/
def createTeam (players : List Player) : Team :=
  { players := players
    avgSkillRating := (players.map calculatePlayerSkill).sum / (players.length : Rat)
    totalGamesPlayed := (players.map Player.gamesPlayed).sum
    ogCount := countOGPlayers players }

/-- Embeds `handleTeamAssignment` from game-population.ts. -/
def handleTeamAssignment (state : GameState) : GameState :=
  let sortedPlayers := sortJS playerLe state.availablePlayers
  let r := distributeGo 0 sortedPlayers
  { state with
    teamA := createTeam r.1
    teamB := createTeam r.2
    currentState := PopulationState.COURT_SELECTION }

/-- Embeds `handleWaitingForPlayers` from game-population.ts. -/
def handleWaitingForPlayers (state : GameState) : GameState :=
  if state.availablePlayers.length ≥ state.config.minPlayersPerTeam * 2 then
    { state with currentState := PopulationState.TEAM_ASSIGNMENT }
  else
    state

/-- Embeds `handleCourtSelection` from game-population.ts. -/
def handleCourtSelection (state : GameState) : GameState :=
  { state with
    selectedCourt := state.config.courtPreference.get? 0
    currentState := PopulationState.GAME_CREATION }

/-- A row of `storage.getCheckins` as consumed by `populateGame`
(checkin joined with the user's name and birth year). -/
structure CheckinInfo where
  userId : Int
  username : String
  birthYear : Option Int
  queuePosition : Nat
deriving DecidableEq, Repr

/-- The player record `populateGame` builds for a team slot. -/
def toAssignedPlayer (c : CheckinInfo) : Player :=
  { id := c.userId
    username := c.username
    gamesPlayed := 0
    consecutiveLosses := 0
    birthYear := c.birthYear
    isOG := isOGPlayer c.birthYear
    status := PlayerStatus.ASSIGNED }

/-- The player record `populateGame` builds for a next-up entry. -/
def toAvailablePlayer (c : CheckinInfo) : Player :=
  { id := c.userId
    username := c.username
    gamesPlayed := 0
    consecutiveLosses := 0
    birthYear := c.birthYear
    isOG := isOGPlayer c.birthYear
    status := PlayerStatus.AVAILABLE }

/-- Embeds `populateGame` from game-population.ts (the revision with positional
assignment), as a pure function of the active game set's `playersPerTeam` and
the ordered checkin list fetched from the store.  `slice(a, b)` is
`drop a |>.take (b - a)`. -/
def populateGame (gameSetPlayersPerTeam : Option Nat) (checkins : List CheckinInfo) :
    Except String GameState :=
  match gameSetPlayersPerTeam with
  | none => Except.error "No active game set found"
  | some ppt =>
    let config : GameConfig :=
      { minPlayersPerTeam := max 3 (ppt - 1)
        maxPlayersPerTeam := ppt
        maxConsecutiveLosses := 2
        courtPreference := ["West", "East"] }
    let gameState := initializeGameState config
    let teamSize := config.maxPlayersPerTeam
    let teamAPlayers := (checkins.take teamSize).map toAssignedPlayer
    let teamBPlayers := ((checkins.drop teamSize).take teamSize).map toAssignedPlayer
    let availPlayers := (checkins.drop (teamSize * 2)).map toAvailablePlayer
    Except.ok { gameState with
      teamA := { gameState.teamA with
        players := teamAPlayers
        ogCount := countOGPlayers teamAPlayers }
      teamB := { gameState.teamB with
        players := teamBPlayers
        ogCount := countOGPlayers teamBPlayers }
      availablePlayers := availPlayers
      currentState := PopulationState.COMPLETE }

/-- A row of the `game_sets` table (the fields the embedded operations read). -/
structure GameSetRow where
  id : Nat
  playersPerTeam : Nat
  maxConsecutiveTeamWins : Nat
  currentQueuePosition : Nat
  queueNextUp : Nat
  isActive : Bool
deriving DecidableEq, Repr

/-- A row of the `games` table. -/
structure GameRow where
  id : Nat
  setId : Nat
  clubIndex : Nat
  court : String
  state : String
  team1Score : Option Int
  team2Score : Option Int
deriving DecidableEq, Repr

/-- A row of the `checkins` table (`checkInTime` is wall-clock time and is
omitted; no embedded claim reads it). -/
structure CheckinRow where
  userId : Int
  clubIndex : Nat
  isActive : Bool
  checkInDate : Nat
  gameSetId : Nat
  queuePosition : Nat
  type : String
  gameId : Option Nat
deriving DecidableEq, Repr

/-- A row of the `game_players` table. -/
structure GamePlayerRow where
  gameId : Nat
  userId : Int
  team : Nat
deriving DecidableEq, Repr

/-- A row of the `users` table (the field the score flow reads). -/
structure UserRow where
  id : Int
  autoup : Bool
deriving DecidableEq, Repr

/-- The database state the storage layer operates on; `today` stands for
`getDateString(getCentralTime())`, constant within one operation. -/
structure DB where
  gameSets : List GameSetRow
  games : List GameRow
  checkins : List CheckinRow
  gamePlayers : List GamePlayerRow
  users : List UserRow
  today : Nat
deriving DecidableEq, Repr

/-- The winning team of a game: `team1Score! > team2Score! ? 1 : 2`
(a SQL NULL score coerces to 0 in the JS comparison, hence `getD 0`). -/
def winnerOf (g : GameRow) : Nat :=
  if g.team1Score.getD 0 > g.team2Score.getD 0 then 1 else 2

/-- Embeds `ORDER BY id DESC` on a list of game rows. -/
def sortDescById (l : List GameRow) : List GameRow :=
  sortJS (fun a b => decide (b.id ≤ a.id)) l

/-- The `previousGames` query of `determinePromotionType`: completed (`final`)
games on the same court in the same game set with a smaller id, most recent
(largest id) first — reverse chronological order. -/
def priorFinalGames (db : DB) (g : GameRow) (gameId : Nat) : List GameRow :=
  sortDescById (db.games.filter
    (fun h => h.setId = g.setId ∧ h.court = g.court ∧ h.state = "final" ∧ h.id < gameId))

/-- The consecutive-wins loop of `determinePromotionType`: walk the previous
games most-recent-first, incrementing while the same team keeps winning,
breaking at the first game won by the other team. -/
def consecLoop (winningTeam : Nat) (acc : Nat) : List GameRow → Nat
  | [] => acc
  | h :: t => if winnerOf h = winningTeam then consecLoop winningTeam (acc + 1) t else acc

/-- The promotion kind recorded on a promoted player's checkin. -/
inductive PromoType where
  | win_promoted
  | loss_promoted
deriving DecidableEq, Repr

/-- Embeds the `type` string stored for a promotion checkin. -/
def promoTypeString : PromoType → String
  | PromoType.win_promoted => "win_promoted"
  | PromoType.loss_promoted => "loss_promoted"

/-- Result of `determinePromotionType`. -/
structure PromotionInfo where
  type : PromoType
  team : Nat
deriving DecidableEq, Repr

/-- Embeds `determinePromotionType` from the storage layer (src/unnamed/part_016):
find the game (joined with its game set), collect prior final games on the same
court in the set in reverse chronological order, count the winner's streak
starting at 1, and promote the winner when the streak is below
`maxConsecutiveTeamWins`, else the loser. -/
def determinePromotionType (db : DB) (gameId : Nat) : Except String PromotionInfo :=
  match db.games.find? (fun h => h.id = gameId) with
  | none => Except.error "Game not found"
  | some game =>
    match db.gameSets.find? (fun s => s.id = game.setId) with
    | none => Except.error "Game not found"
    | some gameSet =>
      let previousGames := priorFinalGames db game gameId
      let winningTeam := winnerOf game
      let consecutiveWins := consecLoop winningTeam 1 previousGames
      if consecutiveWins < gameSet.maxConsecutiveTeamWins then
        Except.ok { type := PromoType.win_promoted, team := winningTeam }
      else
        Except.ok { type := PromoType.loss_promoted
                    team := if winningTeam = 1 then 2 else 1 }

/-- The first phase of `updateGameScore`: deactivate every checkin linked to
the game, then record the scores and mark the game `final`. -/
def dbAfterScore (db : DB) (gameId : Nat) (team1Score team2Score : Int) : DB :=
  { db with
    checkins := db.checkins.map (fun c =>
      if c.gameId = some gameId then { c with isActive := false } else c)
    games := db.games.map (fun h =>
      if h.id = gameId then
        { h with team1Score := some team1Score
                 team2Score := some team2Score
                 state := "final" }
      else h) }

/-- The player query of `updateGameScore`: game players of the game joined
with their user's `autoup` flag. -/
def gamePlayersWithAutoup (db : DB) (gameId : Nat) : List (GamePlayerRow × Bool) :=
  (db.gamePlayers.filter (fun gp => gp.gameId = gameId)).filterMap
    (fun gp => (db.users.find? (fun u => u.id = gp.userId)).map (fun u => (gp, u.autoup)))

/-- Number of non-promoted players of the game whose `autoup` preference is
set (one tail position is consumed per such player). -/
def autoRejoinCount (db : DB) (gameId : Nat) (promotedTeam : Nat) : Nat :=
  (((gamePlayersWithAutoup db gameId).filter (fun x => x.1.team ≠ promotedTeam)).filter
    (fun x => x.2)).length

/-- A checkin inserted for a promoted player, at head position + offset. -/
def promotedCheckin (gs : GameSetRow) (today : Nat) (ptype : PromoType)
    (i : Nat) (p : GamePlayerRow × Bool) : CheckinRow :=
  { userId := p.1.userId
    clubIndex := 34
    isActive := true
    checkInDate := today
    gameSetId := gs.id
    queuePosition := gs.currentQueuePosition + i
    type := promoTypeString ptype
    gameId := none }

/-- A checkin inserted for an auto-rejoining non-promoted player, at the
reserved tail position + offset. -/
def autoupCheckin (gs : GameSetRow) (today : Nat) (startPos : Nat)
    (j : Nat) (p : GamePlayerRow × Bool) : CheckinRow :=
  { userId := p.1.userId
    clubIndex := 34
    isActive := true
    checkInDate := today
    gameSetId := gs.id
    queuePosition := startPos + j
    type := "autoup"
    gameId := none }

/-- Embeds `updateGameScore` from the storage layer (src/unnamed/part_016): deactivate
the game's checkins, record the scores, determine the promotion, bump the tail
pointer by `playersPerTeam`, shift every active queue position at or past the
head up by `playersPerTeam`, insert promoted checkins at the head positions,
insert `autoup` checkins for non-promoted auto-rejoin players at the reserved
tail positions, and finally set the tail pointer past them.  The head pointer
`currentQueuePosition` is never written here. -/
def updateGameScore (db : DB) (gameId : Nat) (team1Score team2Score : Int) :
    Except String DB :=
  match db.games.find? (fun h => h.id = gameId) with
  | none => Except.error "Game not found"
  | some game =>
    match db.gameSets.find? (fun s => s.id = game.setId) with
    | none => Except.error "Game set not found"
    | some gameSet =>
      let db2 := dbAfterScore db gameId team1Score team2Score
      match determinePromotionType db2 gameId with
      | Except.error e => Except.error e
      | Except.ok promotionInfo =>
        let players := gamePlayersWithAutoup db2 gameId
        let promotedTeamPlayers := players.filter (fun x => x.1.team = promotionInfo.team)
        let nonPromotedTeamPlayers := players.filter (fun x => x.1.team ≠ promotionInfo.team)
        let updatedQueueNextUp := gameSet.queueNextUp + gameSet.playersPerTeam
        let db3 : DB := { db2 with
          gameSets := db2.gameSets.map (fun s : GameSetRow =>
            if s.id = gameSet.id then { s with queueNextUp := updatedQueueNextUp } else s) }
        let db4 : DB := { db3 with
          checkins := db3.checkins.map (fun c : CheckinRow =>
            if c.checkInDate = db.today ∧ c.isActive = true ∧
               c.queuePosition ≥ gameSet.currentQueuePosition then
              { c with queuePosition := c.queuePosition + gameSet.playersPerTeam }
            else c) }
        let db5 : DB := { db4 with
          checkins := db4.checkins ++
            (promotedTeamPlayers.enum.map (fun pi =>
              promotedCheckin gameSet db.today promotionInfo.type pi.1 pi.2)) }
        let autoups := nonPromotedTeamPlayers.filter (fun x => x.2)
        let nextPosition := updatedQueueNextUp + autoups.length
        let db6 : DB := { db5 with
          checkins := db5.checkins ++
            (autoups.enum.map (fun pj =>
              autoupCheckin gameSet db.today updatedQueueNextUp pj.1 pj.2)) }
        let db7 : DB := { db6 with
          gameSets := db6.gameSets.map (fun s : GameSetRow =>
            if s.id = gameSet.id then { s with queueNextUp := nextPosition } else s) }
        Except.ok db7

/-- Embeds `createGame` from the storage layer (src/unnamed/part_016): advance the
head pointer `currentQueuePosition` by `playersPerTeam * 2` and insert the new
game row (`newGameId` stands for the database-assigned id). -/
def createGame (db : DB) (setId : Nat) (court : String) (state : String)
    (newGameId : Nat) : Except String DB :=
  match db.gameSets.find? (fun s => s.id = setId) with
  | none => Except.error "Game set not found"
  | some gameSet =>
    let newQueuePosition := gameSet.currentQueuePosition + gameSet.playersPerTeam * 2
    Except.ok { db with
      gameSets := db.gameSets.map (fun s =>
        if s.id = setId then { s with currentQueuePosition := newQueuePosition } else s)
      games := db.games ++
        [{ id := newGameId, setId := setId, clubIndex := 34, court := court,
           state := state, team1Score := none, team2Score := none }] }

/-- The winning-team computation of the PATCH /api/games/:id/score route
(src/server/routes.ts): team 1 wins exactly when `team1Score > team2Score`. -/
def routesWinningTeam (team1Score team2Score : Int) : Nat :=
  if team1Score > team2Score then 1 else 2

/-- The losing-team computation of the score route. -/
def routesLosingTeam (team1Score team2Score : Int) : Nat :=
  if routesWinningTeam team1Score team2Score = 1 then 2 else 1

/-- The players the score route re-queues: all players of the losing team. -/
def routesLosingPlayers (players : List GamePlayerRow) (team1Score team2Score : Int) :
    List GamePlayerRow :=
  players.filter (fun p => p.team = routesLosingTeam team1Score team2Score)

/-- The claim's streak: 1 for the just-finished game plus the prior completed
games (given most recent first) won consecutively by the same team, stopping at
the first prior game won by the other team. -/
def specStreak (winningTeam : Nat) (prior : List GameRow) : Nat :=
  1 + (prior.takeWhile (fun h => winnerOf h == winningTeam)).length

/-- Promotion decision written from the claim's words (the spec side of the
refinement): if the winner's streak `S` over the prior completed games on the
same court in the same session is below `maxConsecutiveTeamWins`, promote the
winner, else promote the loser. -/
def specPromotionDecision (g : GameRow) (maxWins : Nat) (prior : List GameRow) :
    PromotionInfo :=
  let w := winnerOf g
  if specStreak w prior < maxWins then
    { type := PromoType.win_promoted, team := w }
  else
    { type := PromoType.loss_promoted, team := if w = 1 then 2 else 1 }

/-- The three containers a snapshot distributes players over. -/
inductive Loc where
  | teamA : Nat → Loc
  | teamB : Nat → Loc
  | nextUp : Nat → Loc
deriving DecidableEq, Repr

/-- How the move handlers decode a flattened index against
`config.maxPlayersPerTeam`. -/
def decodeIdx (teamSize : Nat) (k : Nat) : Loc :=
  if k ≥ teamSize * 2 then Loc.nextUp (k - teamSize * 2)
  else if k < teamSize then Loc.teamA k
  else Loc.teamB (k - teamSize)

/-- The container (and position) actually holding the player, searching
Team A, then Team B, then next-up, as `findPlayerIndex` does. -/
def actualLoc (state : GameState) (playerId : Int) : Option Loc :=
  match findIdxP playerId state.teamA.players with
  | some i => some (Loc.teamA i)
  | none =>
    match findIdxP playerId state.teamB.players with
    | some i => some (Loc.teamB i)
    | none =>
      match findIdxP playerId state.availablePlayers with
      | some i => some (Loc.nextUp i)
      | none => none

/-- The multiset of players across Team A, Team B and the next-up list. -/
def playersMultiset (state : GameState) : Multiset Player :=
  ((state.teamA.players ++ state.teamB.players ++ state.availablePlayers : List Player) :
    Multiset Player)

/-- The multiset of player ids across Team A, Team B and the next-up list. -/
def idsMultiset (state : GameState) : Multiset Int :=
  ((state.teamA.players ++ state.teamB.players ++ state.availablePlayers).map
    Player.id : List Int)

/-- The player with id `pid` sits exactly at position `i` of `l` and nowhere
else. -/
def uniqueAt (l : List Player) (pid : Int) (i : Nat) : Prop :=
  (l.get? i).map Player.id = some pid ∧
  ∀ j, j < l.length → j ≠ i → (l.get? j).map Player.id ≠ some pid

/-- Apply VERTICAL_SWAP `n` times, re-locating the fixed player id before each
application (each application targets the slot currently holding the player). -/
def vswapIter (state : GameState) (playerId : Int) : Nat → GameState
  | 0 => state
  | n + 1 => vswapIter (movePlayer state playerId MoveType.VERTICAL_SWAP).updatedState
      playerId n

/-! Concrete inputs used by witnesses and counterexamples. -/

/-- A plain player with the given id. -/
def mkP (i : Int) : Player :=
  { id := i, username := "p", gamesPlayed := 0, consecutiveLosses := 0,
    birthYear := none, isOG := false, status := PlayerStatus.AVAILABLE }

/-- A team holding the given players (aggregates as populate initializes them). -/
def mkT (ps : List Player) : Team :=
  { players := ps, avgSkillRating := 0, totalGamesPlayed := 0, ogCount := 0 }

/-- A configuration with the given team size. -/
def mkCfg (teamSize : Nat) : GameConfig :=
  { minPlayersPerTeam := teamSize, maxPlayersPerTeam := teamSize,
    maxConsecutiveLosses := 2, courtPreference := ["West", "East"] }

/-- Full snapshot, teamSize 1: A=[1], B=[2], next-up=[3]. -/
def snapC3 : GameState :=
  { currentState := PopulationState.COMPLETE
    availablePlayers := [mkP 3]
    teamA := mkT [mkP 1]
    teamB := mkT [mkP 2]
    selectedCourt := some "West"
    config := mkCfg 1 }

/-- Full snapshot, teamSize 3: A=[1,2,3], B=[4,5,6], next-up empty. -/
def snapC5 : GameState :=
  { currentState := PopulationState.COMPLETE
    availablePlayers := []
    teamA := mkT [mkP 1, mkP 2, mkP 3]
    teamB := mkT [mkP 4, mkP 5, mkP 6]
    selectedCourt := some "West"
    config := mkCfg 3 }

/-- Full snapshot, teamSize 2: A=[1,2], B=[3,4], next-up empty. -/
def snapH : GameState :=
  { currentState := PopulationState.COMPLETE
    availablePlayers := []
    teamA := mkT [mkP 1, mkP 2]
    teamB := mkT [mkP 3, mkP 4]
    selectedCourt := some "West"
    config := mkCfg 2 }

/-- Snapshot with empty teams and one next-up player, teamSize 1 (not full). -/
def snapC9bad : GameState :=
  { currentState := PopulationState.WAITING_FOR_PLAYERS
    availablePlayers := [mkP 1]
    teamA := mkT []
    teamB := mkT []
    selectedCourt := none
    config := mkCfg 1 }

/-- Game set used by the concrete databases: teamSize 4, win cap 2. -/
def cgs4 : GameSetRow :=
  { id := 1, playersPerTeam := 4, maxConsecutiveTeamWins := 2,
    currentQueuePosition := 1, queueNextUp := 9, isActive := true }

/-- A finished game on court "West" won by team 1 (21-15). -/
def cgamePrior : GameRow :=
  { id := 1, setId := 1, clubIndex := 34, court := "West", state := "final",
    team1Score := some 21, team2Score := some 15 }

/-- The just-finished game on court "West", also won by team 1 (21-18). -/
def cgameCur : GameRow :=
  { id := 2, setId := 1, clubIndex := 34, court := "West", state := "final",
    team1Score := some 21, team2Score := some 18 }

/-- Database for the promotion-cap scenario: two consecutive wins by team 1 on
court "West" with `maxConsecutiveTeamWins = 2`. -/
def cdb1 : DB :=
  { gameSets := [cgs4]
    games := [cgamePrior, cgameCur]
    checkins := []
    gamePlayers := []
    users := []
    today := 7 }

/-- The pending game whose score gets recorded in the C4 database. -/
def cgame4 : GameRow :=
  { id := 1, setId := 1, clubIndex := 34, court := "West", state := "pending",
    team1Score := none, team2Score := none }

/-- Database for the score-recording bookkeeping claim: one pending game with
one player per team, both with auto-rejoin set. -/
def cdb4 : DB :=
  { gameSets := [cgs4]
    games := [cgame4]
    checkins := []
    gamePlayers := [{ gameId := 1, userId := 10, team := 1 },
                    { gameId := 1, userId := 11, team := 2 }]
    users := [{ id := 10, autoup := true }, { id := 11, autoup := true }]
    today := 7 }

/-- A game that ended in a tie (15-15). -/
def cgameTie : GameRow :=
  { id := 1, setId := 1, clubIndex := 34, court := "East", state := "final",
    team1Score := some 15, team2Score := some 15 }

/-- Database holding only the tied game. -/
def cdbTie : DB :=
  { gameSets := [cgs4]
    games := [cgameTie]
    checkins := []
    gamePlayers := []
    users := []
    today := 7 }

/-- The game players of the tied game as the score route sees them. -/
def cplayersTie : List GamePlayerRow :=
  [{ gameId := 1, userId := 10, team := 1 }, { gameId := 1, userId := 11, team := 2 }]

/-- Ten ordered checkins (user ids 1..10). -/
def cCheckins10 : List CheckinInfo :=
  [{ userId := 1, username := "a", birthYear := none, queuePosition := 1 },
   { userId := 2, username := "b", birthYear := none, queuePosition := 2 },
   { userId := 3, username := "c", birthYear := none, queuePosition := 3 },
   { userId := 4, username := "d", birthYear := none, queuePosition := 4 },
   { userId := 5, username := "e", birthYear := none, queuePosition := 5 },
   { userId := 6, username := "f", birthYear := none, queuePosition := 6 },
   { userId := 7, username := "g", birthYear := none, queuePosition := 7 },
   { userId := 8, username := "h", birthYear := none, queuePosition := 8 },
   { userId := 9, username := "i", birthYear := none, queuePosition := 9 },
   { userId := 10, username := "j", birthYear := none, queuePosition := 10 }]

/-! ### Helper lemmas -/

theorem findIdxP_bound {pid : Int} {l : List Player} {i : Nat}
    (h : findIdxP pid l = some i) : i < l.length := by
  induction l generalizing i with
  | nil => simp [findIdxP] at h
  | cons p ps ih =>
    by_cases hp : p.id = pid
    · simp [findIdxP, hp] at h
      subst h
      simp
    · simp only [findIdxP, hp, if_false, Option.map_eq_some'] at h
      obtain ⟨j, hj, rfl⟩ := h
      have := ih hj
      simp only [List.length_cons]
      omega

theorem findIdxP_get {pid : Int} {l : List Player} {i : Nat}
    (h : findIdxP pid l = some i) : ∃ a, l.get? i = some a ∧ a.id = pid := by
  induction l generalizing i with
  | nil => simp [findIdxP] at h
  | cons p ps ih =>
    by_cases hp : p.id = pid
    · simp [findIdxP, hp] at h
      subst h
      exact ⟨p, rfl, hp⟩
    · simp only [findIdxP, hp, if_false, Option.map_eq_some'] at h
      obtain ⟨j, hj, rfl⟩ := h
      simpa using ih hj

theorem findIdxP_before {pid : Int} {l : List Player} {i : Nat}
    (h : findIdxP pid l = some i) :
    ∀ j, j < i → ∀ b, l.get? j = some b → b.id ≠ pid := by
  induction l generalizing i with
  | nil => simp [findIdxP] at h
  | cons p ps ih =>
    by_cases hp : p.id = pid
    · simp [findIdxP, hp] at h
      omega
    · simp only [findIdxP, hp, if_false, Option.map_eq_some'] at h
      obtain ⟨k, hk, rfl⟩ := h
      intro j hj b hb
      cases j with
      | zero =>
        simp at hb
        subst hb
        exact hp
      | succ m =>
        exact ih hk m (by omega) b hb

theorem findIdxP_none {pid : Int} {l : List Player} :
    findIdxP pid l = none ↔ ∀ a ∈ l, a.id ≠ pid := by
  induction l with
  | nil => simp [findIdxP]
  | cons p ps ih =>
    by_cases hp : p.id = pid
    · simp [findIdxP, hp]
    · simp [findIdxP, hp, Option.map_eq_none', ih]

theorem findIdxP_some_of {pid : Int} {l : List Player} {i : Nat} {a : Player}
    (ha : l.get? i = some a) (hpa : a.id = pid)
    (hbefore : ∀ j, j < i → ∀ b, l.get? j = some b → b.id ≠ pid) :
    findIdxP pid l = some i := by
  induction l generalizing i with
  | nil => simp at ha
  | cons p ps ih =>
    cases i with
    | zero =>
      simp at ha
      subst ha
      simp [findIdxP, hpa]
    | succ k =>
      have hp : p.id ≠ pid := hbefore 0 (Nat.succ_pos k) p rfl
      have : findIdxP pid ps = some k :=
        ih ha (fun j hj b hb => hbefore (j + 1) (by omega) b hb)
      simp [findIdxP, hp, this]

theorem set_get?_self {α : Type} {l : List α} {i : Nat} {a : α}
    (h : l.get? i = some a) : l.set i a = l := by
  induction l generalizing i with
  | nil => simp at h
  | cons x xs ih =>
    cases i with
    | zero =>
      rw [List.get?_cons_zero] at h
      cases h
      simp
    | succ k =>
      rw [List.get?_cons_succ] at h
      rw [List.set_cons_succ, ih h]

theorem mset_set {α : Type} {l : List α} {j : Nat} {a b : α}
    (h : l.get? j = some b) :
    b ::ₘ (↑(l.set j a) : Multiset α) = a ::ₘ (↑l : Multiset α) := by
  induction l generalizing j with
  | nil => simp at h
  | cons x xs ih =>
    cases j with
    | zero =>
      rw [List.get?_cons_zero] at h
      cases h
      simp only [List.set_cons_zero, ← Multiset.cons_coe]
      exact Multiset.cons_swap b a ↑xs
    | succ k =>
      rw [List.get?_cons_succ] at h
      have heq := ih h
      simp only [List.set_cons_succ, ← Multiset.cons_coe]
      rw [Multiset.cons_swap b x, heq, Multiset.cons_swap]

theorem mset_removeAt {α : Type} {l : List α} {i : Nat} {b : α}
    (h : l.get? i = some b) :
    (↑l : Multiset α) = b ::ₘ (↑(l.take i ++ l.drop (i + 1)) : Multiset α) := by
  induction l generalizing i with
  | nil => simp at h
  | cons x xs ih =>
    cases i with
    | zero =>
      rw [List.get?_cons_zero] at h
      cases h
      simp
    | succ k =>
      rw [List.get?_cons_succ] at h
      have heq := ih h
      simp only [List.take_succ_cons, List.drop_succ_cons, List.cons_append,
        ← Multiset.cons_coe]
      rw [heq, Multiset.cons_swap]

theorem find?_map_pres {α : Type} {p : α → Bool} {u : α → α}
    (hu : ∀ a, p (u a) = p a) {l : List α} {b : α}
    (h : l.find? p = some b) : (l.map u).find? p = some (u b) := by
  induction l with
  | nil => simp at h
  | cons x xs ih =>
    by_cases hx : p x
    · rw [List.find?_cons_of_pos _ hx] at h
      have hb : x = b := by simpa using h
      subst hb
      rw [List.map_cons, List.find?_cons_of_pos _ (by rw [hu]; exact hx)]
    · rw [List.find?_cons_of_neg _ hx] at h
      rw [List.map_cons, List.find?_cons_of_neg _ (by rw [hu]; exact hx)]
      exact ih h

theorem consecLoop_eq (w : Nat) (l : List GameRow) (acc : Nat) :
    consecLoop w acc l = acc + (l.takeWhile (fun h => winnerOf h == w)).length := by
  induction l generalizing acc with
  | nil => simp [consecLoop]
  | cons g t ih =>
    by_cases hg : winnerOf g = w
    · simp [consecLoop, hg, List.takeWhile_cons, ih]
      omega
    · simp [consecLoop, hg, List.takeWhile_cons]

theorem idsMultiset_eq_map (st : GameState) :
    idsMultiset st = Multiset.map Player.id (playersMultiset st) := by
  simp [idsMultiset, playersMultiset]

theorem perm_insertS {α : Type} (le : α → α → Bool) (x : α) (l : List α) :
    List.Perm (insertS le x l) (x :: l) := by
  induction l with
  | nil => exact List.Perm.refl _
  | cons y ys ih =>
    by_cases h : le x y
    · simp [insertS, h]
    · simp only [insertS, h, if_false]
      exact (ih.cons y).trans (List.Perm.swap x y ys)

theorem perm_sortJS {α : Type} (le : α → α → Bool) (l : List α) :
    List.Perm (sortJS le l) l := by
  induction l with
  | nil => exact List.Perm.refl _
  | cons x xs ih =>
    exact (perm_insertS le x (sortJS le xs)).trans (ih.cons x)

theorem pairwise_insertS {α : Type} {le : α → α → Bool}
    (total : ∀ a b, le a b = true ∨ le b a = true)
    (htrans : ∀ a b c, le a b = true → le b c = true → le a c = true)
    {x : α} {l : List α} (hl : l.Pairwise (fun a b => le a b = true)) :
    (insertS le x l).Pairwise (fun a b => le a b = true) := by
  induction l with
  | nil => simp [insertS]
  | cons y ys ih =>
    rcases List.pairwise_cons.mp hl with ⟨hy, hys⟩
    by_cases h : le x y
    · simp only [insertS, h, if_true]
      refine List.pairwise_cons.mpr ⟨?_, hl⟩
      intro z hz
      rcases List.mem_cons.mp hz with rfl | hzys
      · exact h
      · exact htrans x y z h (hy z hzys)
    · simp only [insertS, h, if_false]
      have hyx : le y x = true := (total x y).resolve_left h
      refine List.pairwise_cons.mpr ⟨?_, ih hys⟩
      intro z hz
      rcases List.mem_cons.mp ((perm_insertS le x ys).mem_iff.mp hz) with rfl | hzys
      · exact hyx
      · exact hy z hzys

theorem pairwise_sortJS {α : Type} {le : α → α → Bool}
    (total : ∀ a b, le a b = true ∨ le b a = true)
    (htrans : ∀ a b c, le a b = true → le b c = true → le a c = true)
    (l : List α) : (sortJS le l).Pairwise (fun a b => le a b = true) := by
  induction l with
  | nil => simp [sortJS]
  | cons x xs ih => exact pairwise_insertS total htrans ih

theorem playerLe_iff {a b : Player} :
    playerLe a b = true ↔
      (calculatePlayerSkill b < calculatePlayerSkill a ∨
       (calculatePlayerSkill b = calculatePlayerSkill a ∧
        b.gamesPlayed ≤ a.gamesPlayed)) := by
  unfold playerLe playerCmp
  by_cases h : calculatePlayerSkill b - calculatePlayerSkill a ≠ 0
  · rw [if_pos h]
    simp only [decide_eq_true_eq]
    constructor
    · intro hle
      left
      have hne : calculatePlayerSkill b - calculatePlayerSkill a < 0 :=
        lt_of_le_of_ne hle h
      linarith
    · rintro (hlt | ⟨heq, _⟩)
      · linarith
      · exact absurd (by rw [heq]; ring) h
  · push_neg at h
    rw [if_neg (by simpa using h)]
    have heq : calculatePlayerSkill b = calculatePlayerSkill a := by linarith
    simp only [decide_eq_true_eq, sub_nonpos]
    constructor
    · intro hle
      right
      exact ⟨heq, by exact_mod_cast hle⟩
    · rintro (hlt | ⟨_, hle⟩)
      · linarith
      · exact_mod_cast hle

theorem playerLe_total (a b : Player) : playerLe a b = true ∨ playerLe b a = true := by
  rw [playerLe_iff, playerLe_iff]
  rcases lt_trichotomy (calculatePlayerSkill a) (calculatePlayerSkill b) with h | h | h
  · right
    left
    exact h
  · rcases Int.le_total a.gamesPlayed b.gamesPlayed with hg | hg
    · right
      right
      exact ⟨h, hg⟩
    · left
      right
      exact ⟨h.symm, hg⟩
  · left
    left
    exact h

theorem playerLe_trans (a b c : Player) (hab : playerLe a b = true)
    (hbc : playerLe b c = true) : playerLe a c = true := by
  rw [playerLe_iff] at hab hbc ⊢
  rcases hab with h1 | ⟨h1, g1⟩
  · rcases hbc with h2 | ⟨h2, _⟩
    · left
      linarith
    · left
      linarith
  · rcases hbc with h2 | ⟨h2, g2⟩
    · left
      linarith
    · right
      exact ⟨by linarith, le_trans g2 g1⟩

theorem evens_odds_cons {α : Type} :
    ∀ (xs : List α), (∀ x, evensL (x :: xs) = x :: oddsL xs) ∧
      (∀ x, oddsL (x :: xs) = evensL xs) := by
  intro xs
  induction xs with
  | nil => exact ⟨fun x => rfl, fun x => rfl⟩
  | cons y ys ih =>
    constructor
    · intro x
      show x :: evensL ys = x :: oddsL (y :: ys)
      rw [ih.2 y]
    · intro x
      show y :: oddsL ys = evensL (y :: ys)
      rw [ih.1 y]

theorem distributeGo_parity {α : Type} :
    ∀ (l : List α) (i : Nat),
      distributeGo i l = if i % 2 = 0 then (evensL l, oddsL l) else (oddsL l, evensL l) := by
  intro l
  induction l with
  | nil =>
    intro i
    by_cases h : i % 2 = 0 <;> simp [distributeGo, evensL, oddsL, h]
  | cons x xs ih =>
    intro i
    by_cases h : i % 2 = 0
    · have h1 : (i + 1) % 2 ≠ 0 := by omega
      simp only [distributeGo, ih (i + 1), if_neg h1, if_pos h,
        (evens_odds_cons xs).1 x, (evens_odds_cons xs).2 x]
    · have h1 : (i + 1) % 2 = 0 := by omega
      simp only [distributeGo, ih (i + 1), if_pos h1, if_neg h,
        (evens_odds_cons xs).1 x, (evens_odds_cons xs).2 x]

theorem evens_odds_get? {α : Type} :
    ∀ (l : List α), (∀ k, (evensL l).get? k = l.get? (2 * k)) ∧
      (∀ k, (oddsL l).get? k = l.get? (2 * k + 1)) := by
  intro l
  induction l with
  | nil => simp [evensL, oddsL]
  | cons x xs ih =>
    constructor
    · intro k
      rw [(evens_odds_cons xs).1 x]
      cases k with
      | zero => simp
      | succ m =>
        rw [List.get?_cons_succ, ih.2 m]
        have h2 : 2 * (m + 1) = (2 * m + 1) + 1 := by omega
        rw [h2, List.get?_cons_succ]
    · intro k
      rw [(evens_odds_cons xs).2 x]
      rw [ih.1 k]
      have h2 : 2 * k + 1 = (2 * k) + 1 := by omega
      rw [h2, List.get?_cons_succ]

/-! ### Claim theorems -/

/-- C6: in the TEAM_ASSIGNMENT step the available players are sorted by skill
score `gamesPlayed − 0.5 × consecutiveLosses` descending, ties broken by
`gamesPlayed` descending, and distributed alternately: sorted rank 0 to
Team A, rank 1 to Team B, rank 2 to Team A, and so on. -/
theorem C6_team_assignment (st : GameState) :
    List.Perm (sortJS playerLe st.availablePlayers) st.availablePlayers ∧
    (sortJS playerLe st.availablePlayers).Pairwise (fun a b =>
      calculatePlayerSkill a > calculatePlayerSkill b ∨
      (calculatePlayerSkill a = calculatePlayerSkill b ∧ a.gamesPlayed ≥ b.gamesPlayed)) ∧
    (∀ k, (handleTeamAssignment st).teamA.players.get? k =
      (sortJS playerLe st.availablePlayers).get? (2 * k)) ∧
    (∀ k, (handleTeamAssignment st).teamB.players.get? k =
      (sortJS playerLe st.availablePlayers).get? (2 * k + 1)) ∧
    (handleTeamAssignment st).currentState = PopulationState.COURT_SELECTION := by
  refine ⟨perm_sortJS _ _, ?_, ?_, ?_, rfl⟩
  · have hp := pairwise_sortJS playerLe_total playerLe_trans st.availablePlayers
    refine hp.imp (fun hab => ?_)
    rcases playerLe_iff.mp hab with h | ⟨h, g⟩
    · exact Or.inl h
    · exact Or.inr ⟨h.symm, g⟩
  · intro k
    show (createTeam (distributeGo 0 (sortJS playerLe st.availablePlayers)).1).players.get? k
      = (sortJS playerLe st.availablePlayers).get? (2 * k)
    rw [createTeam, distributeGo_parity]
    simpa using (evens_odds_get? (sortJS playerLe st.availablePlayers)).1 k
  · intro k
    show (createTeam (distributeGo 0 (sortJS playerLe st.availablePlayers)).2).players.get? k
      = (sortJS playerLe st.availablePlayers).get? (2 * k + 1)
    rw [createTeam, distributeGo_parity]
    simpa using (evens_odds_get? (sortJS playerLe st.availablePlayers)).2 k

/-- C7: populating from a queue of 10 checked-in players with teamSize 4
yields Team A = queue ranks 0..3, Team B = ranks 4..7, next-up = ranks 8..9,
each in queue order. -/
theorem C7_populate_scenario (checkins : List CheckinInfo)
    (hlen : checkins.length = 10) :
    ∃ st, populateGame (some 4) checkins = Except.ok st ∧
      st.teamA.players.length = 4 ∧
      st.teamB.players.length = 4 ∧
      st.availablePlayers.length = 2 ∧
      (∀ i, i < 4 → st.teamA.players.get? i = (checkins.get? i).map toAssignedPlayer) ∧
      (∀ i, i < 4 → st.teamB.players.get? i = (checkins.get? (4 + i)).map toAssignedPlayer) ∧
      (∀ j, j < 2 → st.availablePlayers.get? j =
        (checkins.get? (8 + j)).map toAvailablePlayer) := by
  refine ⟨_, rfl, ?_, ?_, ?_, ?_, ?_, ?_⟩
  · simp [populateGame, initializeGameState, hlen]
  · simp [populateGame, initializeGameState, hlen]
  · simp [populateGame, initializeGameState, hlen]
  · intro i hi
    show ((checkins.take 4).map toAssignedPlayer).get? i = _
    rw [List.get?_map, List.get?_take hi]
  · intro i hi
    show (((checkins.drop 4).take 4).map toAssignedPlayer).get? i = _
    rw [List.get?_map, List.get?_take hi, List.get?_drop]
  · intro j hj
    show ((checkins.drop 8).map toAvailablePlayer).get? j = _
    rw [List.get?_map, List.get?_drop]

/-- C9: `movePlayer` flattens a player's location into one integer index
(Team A, then Team B offset by Team A's actual length, then next-up offset by
both lengths) while the handlers decode it against `config.maxPlayersPerTeam`;
when both teams hold exactly `maxPlayersPerTeam` players the decoded container
is the one actually holding the player, and without that precondition the
classification can be wrong (second conjunct). -/
theorem C9_flattened_index_classification :
    (∀ (st : GameState) (pid : Int) (k : Nat),
      st.teamA.players.length = st.config.maxPlayersPerTeam →
      st.teamB.players.length = st.config.maxPlayersPerTeam →
      findPlayerIndex st pid = some k →
      actualLoc st pid = some (decodeIdx st.config.maxPlayersPerTeam k)) ∧
    (findPlayerIndex snapC9bad 1 = some 0 ∧
     actualLoc snapC9bad 1 = some (Loc.nextUp 0) ∧
     decodeIdx snapC9bad.config.maxPlayersPerTeam 0 = Loc.teamA 0) := by
  constructor
  · intro st pid k hA hB hfind
    unfold findPlayerIndex at hfind
    unfold actualLoc decodeIdx
    cases hfa : findIdxP pid st.teamA.players with
    | some i =>
      rw [hfa] at hfind
      cases hfind
      have hi : k < st.config.maxPlayersPerTeam := hA ▸ findIdxP_bound hfa
      rw [if_neg (by omega), if_pos hi]
    | none =>
      rw [hfa] at hfind
      cases hfb : findIdxP pid st.teamB.players with
      | some i =>
        rw [hfb] at hfind
        cases hfind
        have hi : i < st.config.maxPlayersPerTeam := hB ▸ findIdxP_bound hfb
        rw [hA]
        rw [if_neg (by omega), if_neg (by omega)]
        have : i + st.config.maxPlayersPerTeam - st.config.maxPlayersPerTeam = i := by omega
        rw [this]
      | none =>
        rw [hfb] at hfind
        cases hfv : findIdxP pid st.availablePlayers with
        | some i =>
          rw [hfv] at hfind
          cases hfind
          rw [hA, hB]
          rw [if_pos (by omega)]
          have : i + st.config.maxPlayersPerTeam + st.config.maxPlayersPerTeam -
              st.config.maxPlayersPerTeam * 2 = i := by omega
          rw [this]
        | none =>
          rw [hfv] at hfind
          cases hfind
  · exact ⟨by decide, by decide, by decide⟩

/-- C9 witness: on a full snapshot (teamSize 2) the flattened index 3 of
player 4 decodes to Team B slot 1, the container that actually holds them. -/
theorem C9_witness :
    findPlayerIndex snapH 4 = some 3 ∧
    actualLoc snapH 4 = some (decodeIdx snapH.config.maxPlayersPerTeam 3) :=
  ⟨by decide,
   C9_flattened_index_classification.1 snapH 4 3 (by decide) (by decide) (by decide)⟩

/-- C1: the promotion decision of `determinePromotionType` is exactly the
claim's rule: with `S` the winner's consecutive-win streak over the prior
completed games on the same court in the same session, most recent first,
starting at 1 and stopping at the first game won by the other team, the
winner is promoted when `S < maxConsecutiveTeamWins` and the loser
otherwise. -/
theorem C1_promotion_decision (db : DB) (gid : Nat) (g : GameRow) (gs : GameSetRow)
    (hg : db.games.find? (fun h => h.id = gid) = some g)
    (hs : db.gameSets.find? (fun s => s.id = g.setId) = some gs) :
    determinePromotionType db gid =
      Except.ok (specPromotionDecision g gs.maxConsecutiveTeamWins
        (priorFinalGames db g gid)) := by
  unfold determinePromotionType specPromotionDecision specStreak
  simp only [hg]
  simp only [hs]
  rw [consecLoop_eq]
  split
  · rfl
  · rfl

/-- C1 witness: the promotion-cap scenario — `maxConsecutiveTeamWins = 2`,
team 1 wins its second consecutive game on court "West", so the losing team
(team 2) is promoted. -/
theorem C1_witness :
    determinePromotionType cdb1 2 =
      Except.ok (specPromotionDecision cgameCur cgs4.maxConsecutiveTeamWins
        (priorFinalGames cdb1 cgameCur 2)) ∧
    specPromotionDecision cgameCur cgs4.maxConsecutiveTeamWins
        (priorFinalGames cdb1 cgameCur 2) =
      { type := PromoType.loss_promoted, team := 2 } :=
  ⟨C1_promotion_decision cdb1 2 cgameCur cgs4 (by decide) (by decide), by decide⟩

/-- C10: the winning team is team 1 exactly when `team1Score > team2Score`,
so equal scores make team 2 the winner — in the score route's re-queue
decision (losing team 1 players are re-queued) and in
`determinePromotionType`. -/
theorem C10_tie_makes_team2_winner :
    (∀ t1 t2 : Int, t1 = t2 →
      routesWinningTeam t1 t2 = 2 ∧ routesLosingTeam t1 t2 = 1) ∧
    (∀ (players : List GamePlayerRow) (t1 t2 : Int), t1 = t2 →
      routesLosingPlayers players t1 t2 = players.filter (fun p => p.team = 1)) ∧
    (∀ (db : DB) (gid : Nat) (g : GameRow) (gs : GameSetRow),
      db.games.find? (fun h => h.id = gid) = some g →
      db.gameSets.find? (fun s => s.id = g.setId) = some gs →
      g.team1Score.getD 0 = g.team2Score.getD 0 →
      winnerOf g = 2 ∧
      determinePromotionType db gid = Except.ok
        (if consecLoop 2 1 (priorFinalGames db g gid) < gs.maxConsecutiveTeamWins then
          { type := PromoType.win_promoted, team := 2 }
        else
          { type := PromoType.loss_promoted, team := 1 })) := by
  have hw : ∀ t1 t2 : Int, t1 = t2 → routesWinningTeam t1 t2 = 2 := by
    intro t1 t2 h
    subst h
    simp [routesWinningTeam]
  refine ⟨?_, ?_, ?_⟩
  · intro t1 t2 h
    refine ⟨hw t1 t2 h, ?_⟩
    rw [routesLosingTeam, hw t1 t2 h]
    simp
  · intro players t1 t2 h
    rw [routesLosingPlayers, routesLosingTeam, hw t1 t2 h]
    simp
  · intro db gid g gs hg hs htie
    have hwg : winnerOf g = 2 := by
      rw [winnerOf, if_neg (by omega)]
    refine ⟨hwg, ?_⟩
    unfold determinePromotionType
    simp only [hg]
    simp only [hs]
    simp only [hwg]
    split
    · rfl
    · rfl

/-- C10 witness: a 15-15 game — team 2 is the winner, team 1's players are
re-queued, and the promotion goes to team 2 (fresh court, streak 1 < cap 2). -/
theorem C10_witness :
    (routesWinningTeam 15 15 = 2 ∧ routesLosingTeam 15 15 = 1) ∧
    routesLosingPlayers cplayersTie 15 15 =
      cplayersTie.filter (fun p => p.team = 1) ∧
    winnerOf cgameTie = 2 ∧
    determinePromotionType cdbTie 1 =
      Except.ok { type := PromoType.win_promoted, team := 2 } := by
  have h3 := (C10_tie_makes_team2_winner.2.2) cdbTie 1 cgameTie cgs4
    (by decide) (by decide) (by decide)
  exact ⟨C10_tie_makes_team2_winner.1 15 15 rfl,
         C10_tie_makes_team2_winner.2.1 cplayersTie 15 15 rfl,
         h3.1, by rw [h3.2]; rfl⟩

theorem handleCheckout_fail (st : GameState) (k : Nat)
    (h : (handleCheckout st k).success = false) :
    (handleCheckout st k).updatedState = st := by
  by_cases h1 : k ≥ st.config.maxPlayersPerTeam * 2
  · exfalso
    simp [handleCheckout, h1] at h
  · cases hav : st.availablePlayers with
    | nil => simp [handleCheckout, h1, hav]
    | cons p rest =>
      by_cases h2 : k < st.config.maxPlayersPerTeam
      · exfalso
        simp [handleCheckout, h1, h2, hav] at h
      · exfalso
        simp [handleCheckout, h1, h2, hav] at h

theorem handleBump_fail (st : GameState) (k : Nat)
    (h : (handleBump st k).success = false) :
    (handleBump st k).updatedState = st := by
  by_cases h1 : k ≥ st.config.maxPlayersPerTeam * 2
  · by_cases hg : k - st.config.maxPlayersPerTeam * 2 ≥ st.availablePlayers.length - 1
    · simp [handleBump, h1, hg]
    · exfalso
      cases hga : st.availablePlayers.get? (k - st.config.maxPlayersPerTeam * 2) with
      | none => simp [handleBump, h1, hg, ← List.get?_eq_getElem?, hga] at h
      | some a =>
        cases hgb : st.availablePlayers.get? (k - st.config.maxPlayersPerTeam * 2 + 1) with
        | none => simp [handleBump, h1, hg, ← List.get?_eq_getElem?, hga, hgb] at h
        | some b => simp [handleBump, h1, hg, ← List.get?_eq_getElem?, hga, hgb] at h
  · cases hav : st.availablePlayers with
    | nil => simp [handleBump, h1, hav]
    | cons p rest =>
      exfalso
      by_cases h2 : k < st.config.maxPlayersPerTeam
      · cases hga : st.teamA.players.get? k with
        | none => simp [handleBump, h1, h2, hav, ← List.get?_eq_getElem?, hga] at h
        | some a => simp [handleBump, h1, h2, hav, ← List.get?_eq_getElem?, hga] at h
      · cases hgb : st.teamB.players.get? (k - st.config.maxPlayersPerTeam) with
        | none => simp [handleBump, h1, h2, hav, ← List.get?_eq_getElem?, hgb] at h
        | some a => simp [handleBump, h1, h2, hav, ← List.get?_eq_getElem?, hgb] at h

theorem handleHorizontalSwap_fail (st : GameState) (k : Nat)
    (h : (handleHorizontalSwap st k).success = false) :
    (handleHorizontalSwap st k).updatedState = st := by
  by_cases h1 : k ≥ st.config.maxPlayersPerTeam * 2
  · simp [handleHorizontalSwap, h1]
  · cases hga : st.teamA.players.get?
        (if k < st.config.maxPlayersPerTeam then k else k - st.config.maxPlayersPerTeam) with
    | none => simp [handleHorizontalSwap, h1, ← List.get?_eq_getElem?, hga]
    | some a =>
      cases hgb : st.teamB.players.get?
          (if k < st.config.maxPlayersPerTeam then k else k - st.config.maxPlayersPerTeam) with
      | none => simp [handleHorizontalSwap, h1, ← List.get?_eq_getElem?, hga, hgb]
      | some b =>
        exfalso
        simp [handleHorizontalSwap, h1, ← List.get?_eq_getElem?, hga, hgb] at h

theorem handleVerticalSwap_fail (st : GameState) (k : Nat)
    (h : (handleVerticalSwap st k).success = false) :
    (handleVerticalSwap st k).updatedState = st := by
  by_cases h1 : k < st.config.maxPlayersPerTeam ∨ k ≥ st.config.maxPlayersPerTeam * 2
  · simp [handleVerticalSwap, h1]
  · cases hga : st.teamB.players.get? (k - st.config.maxPlayersPerTeam) with
    | none => simp [handleVerticalSwap, h1, ← List.get?_eq_getElem?, hga]
    | some a =>
      cases hgb : st.teamB.players.get?
          ((k - st.config.maxPlayersPerTeam + 1) % st.config.maxPlayersPerTeam) with
      | none => simp [handleVerticalSwap, h1, ← List.get?_eq_getElem?, hga, hgb]
      | some b =>
        exfalso
        simp [handleVerticalSwap, h1, ← List.get?_eq_getElem?, hga, hgb] at h

/-- C2: a `MoveResult` with `success = false` always carries the caller's
original snapshot unchanged, for every snapshot, player id and move type; in
particular BUMP on a Team A or Team B player with an empty next-up list fails
and leaves the snapshot unchanged. -/
theorem C2_failure_returns_original :
    (∀ (st : GameState) (pid : Int) (mt : MoveType),
      (movePlayer st pid mt).success = false →
      (movePlayer st pid mt).updatedState = st) ∧
    (∀ (st : GameState) (pid : Int),
      st.teamA.players.length = st.config.maxPlayersPerTeam →
      st.teamB.players.length = st.config.maxPlayersPerTeam →
      st.availablePlayers = [] →
      ((∃ p ∈ st.teamA.players, p.id = pid) ∨ (∃ p ∈ st.teamB.players, p.id = pid)) →
      (movePlayer st pid MoveType.BUMP).success = false ∧
      (movePlayer st pid MoveType.BUMP).updatedState = st) := by
  constructor
  · intro st pid mt h
    unfold movePlayer at h ⊢
    cases hf : findPlayerIndex st pid with
    | none => rfl
    | some k =>
      rw [hf] at h
      cases mt with
      | CHECKOUT => exact handleCheckout_fail st k h
      | BUMP => exact handleBump_fail st k h
      | HORIZONTAL_SWAP => exact handleHorizontalSwap_fail st k h
      | VERTICAL_SWAP => exact handleVerticalSwap_fail st k h
  · intro st pid hA hB hav hmem
    cases hfa : findIdxP pid st.teamA.players with
    | some i =>
      have hi : i < st.config.maxPlayersPerTeam := hA ▸ findIdxP_bound hfa
      have hk : findPlayerIndex st pid = some i := by
        unfold findPlayerIndex
        rw [hfa]
      constructor <;>
        simp [movePlayer, hk, handleBump, hav, show ¬ i ≥ st.config.maxPlayersPerTeam * 2
          by omega]
    | none =>
      cases hfb : findIdxP pid st.teamB.players with
      | some j =>
        have hj : j < st.config.maxPlayersPerTeam := hB ▸ findIdxP_bound hfb
        have hk : findPlayerIndex st pid = some (j + st.teamA.players.length) := by
          unfold findPlayerIndex
          rw [hfa, hfb]
        rw [hA] at hk
        constructor <;>
          simp [movePlayer, hk, handleBump, hav,
            show ¬ j + st.config.maxPlayersPerTeam ≥ st.config.maxPlayersPerTeam * 2
              by omega]
      | none =>
        exfalso
        rcases hmem with ⟨p, hp, hpid⟩ | ⟨p, hp, hpid⟩
        · exact findIdxP_none.mp hfa p hp hpid
        · exact findIdxP_none.mp hfb p hp hpid

/-- C2 witness: on a full teamSize-3 snapshot with an empty next-up list,
BUMP of Team A player 1 fails with the snapshot unchanged, as does a move on
an absent player id. -/
theorem C2_witness :
    ((movePlayer snapC5 1 MoveType.BUMP).success = false ∧
     (movePlayer snapC5 1 MoveType.BUMP).updatedState = snapC5) ∧
    (movePlayer snapC5 99 MoveType.CHECKOUT).updatedState = snapC5 :=
  ⟨C2_failure_returns_original.2 snapC5 1 (by decide) (by decide) (by decide)
      (Or.inl ⟨mkP 1, by decide, by decide⟩),
   C2_failure_returns_original.1 snapC5 99 MoveType.CHECKOUT (by decide)⟩

theorem mset_swap {α : Type} {l : List α} {i j : Nat} {a b : α}
    (ha : l.get? i = some a) (hb : l.get? j = some b) :
    (↑((l.set i b).set j a) : Multiset α) = ↑l := by
  have h1 : a ::ₘ (↑(l.set i b) : Multiset α) = b ::ₘ ↑l := mset_set ha
  have hj : (l.set i b).get? j = some b := by
    rw [List.get?_set]
    split
    · rw [hb]
      rfl
    · exact hb
  have h2 : b ::ₘ (↑((l.set i b).set j a) : Multiset α) = a ::ₘ ↑(l.set i b) := mset_set hj
  exact (Multiset.cons_inj_right b).mp (h2.trans h1)

theorem mset_crossswap {α : Type} {l1 l2 : List α} {i : Nat} {a b : α}
    (ha : l1.get? i = some a) (hb : l2.get? i = some b) :
    (↑(l1.set i b) : Multiset α) + ↑(l2.set i a) = ↑l1 + ↑l2 := by
  have h1 : a ::ₘ (↑(l1.set i b) : Multiset α) = b ::ₘ ↑l1 := mset_set ha
  have h2 : b ::ₘ (↑(l2.set i a) : Multiset α) = a ::ₘ ↑l2 := mset_set hb
  rw [← Multiset.singleton_add, ← Multiset.singleton_add] at h1 h2
  have key : ({a} + {b} : Multiset α) + ((↑(l1.set i b) : Multiset α) + ↑(l2.set i a)) =
      ({a} + {b} : Multiset α) + ((↑l1 : Multiset α) + ↑l2) := by
    calc ({a} + {b} : Multiset α) + ((↑(l1.set i b) : Multiset α) + ↑(l2.set i a))
        = ({a} + ↑(l1.set i b)) + ({b} + ↑(l2.set i a)) := by abel
      _ = ({b} + ↑l1) + ({a} + ↑l2) := by rw [h1, h2]
      _ = ({a} + {b} : Multiset α) + ((↑l1 : Multiset α) + ↑l2) := by abel
  exact add_left_cancel key

theorem playersMultiset_components (st : GameState) :
    playersMultiset st =
      (↑st.teamA.players : Multiset Player) + ↑st.teamB.players + ↑st.availablePlayers := by
  simp only [playersMultiset, ← Multiset.coe_add, add_assoc]

theorem ids_of_players_cons {st st' : GameState} {a : Player} {pid : Int}
    (h : playersMultiset st = a ::ₘ playersMultiset st') (hid : a.id = pid) :
    idsMultiset st = pid ::ₘ idsMultiset st' := by
  rw [idsMultiset_eq_map, idsMultiset_eq_map, h, Multiset.map_cons, hid]

theorem ids_of_players_eq {st st' : GameState}
    (h : playersMultiset st' = playersMultiset st) :
    idsMultiset st' = idsMultiset st := by
  rw [idsMultiset_eq_map, idsMultiset_eq_map, h]

theorem get?_of_lt {α : Type} {l : List α} {i : Nat} (h : i < l.length) :
    ∃ a, l.get? i = some a :=
  ⟨l.get ⟨i, h⟩, List.get?_eq_get h⟩

/-- C3 (amended): on snapshots whose teams each hold exactly
`maxPlayersPerTeam` players, every successful BUMP, HORIZONTAL_SWAP or
VERTICAL_SWAP preserves the multiset of player ids across Team A, Team B and
next-up, while a successful CHECKOUT removes exactly one occurrence of the
checked-out id and adds none. -/
theorem C3_conservation_amended :
    ∀ (st : GameState) (pid : Int) (mt : MoveType),
      st.teamA.players.length = st.config.maxPlayersPerTeam →
      st.teamB.players.length = st.config.maxPlayersPerTeam →
      (movePlayer st pid mt).success = true →
      (mt = MoveType.CHECKOUT →
        idsMultiset st = pid ::ₘ idsMultiset (movePlayer st pid mt).updatedState) ∧
      (mt ≠ MoveType.CHECKOUT →
        idsMultiset (movePlayer st pid mt).updatedState = idsMultiset st) := by
  intro st pid mt hA hB hsucc
  cases hfa : findIdxP pid st.teamA.players with
  | some i =>
    have hi : i < st.config.maxPlayersPerTeam := hA ▸ findIdxP_bound hfa
    obtain ⟨a, haga, haid⟩ := findIdxP_get hfa
    have hk : findPlayerIndex st pid = some i := by
      unfold findPlayerIndex
      rw [hfa]
    cases mt with
    | CHECKOUT =>
      refine ⟨fun _ => ?_, fun hne => absurd rfl hne⟩
      cases hav : st.availablePlayers with
      | nil =>
        exfalso
        simp only [movePlayer, hk, handleCheckout] at hsucc
        rw [if_neg (show ¬ i ≥ st.config.maxPlayersPerTeam * 2 by omega), hav] at hsucc
        simp at hsucc
      | cons next rest =>
        simp only [movePlayer, hk, handleCheckout]
        rw [if_neg (show ¬ i ≥ st.config.maxPlayersPerTeam * 2 by omega), hav]
        dsimp only
        rw [if_pos hi]
        refine ids_of_players_cons ?_ haid
        rw [playersMultiset_components, playersMultiset_components]
        dsimp only
        rw [hav, ← Multiset.cons_coe, ← Multiset.singleton_add]
        have h1 := mset_set (a := next) haga
        rw [← Multiset.singleton_add, ← Multiset.singleton_add] at h1
        rw [← Multiset.singleton_add]
        have h2 : ({a} : Multiset Player) + ↑(st.teamA.players.set i next) +
            ((↑st.teamB.players : Multiset Player) + ↑rest) =
            ({next} : Multiset Player) + ↑st.teamA.players +
            ((↑st.teamB.players : Multiset Player) + ↑rest) := by
          rw [h1]
        calc (↑st.teamA.players : Multiset Player) + ↑st.teamB.players +
              (({next} : Multiset Player) + ↑rest)
            = ({next} : Multiset Player) + ↑st.teamA.players +
              ((↑st.teamB.players : Multiset Player) + ↑rest) := by abel
          _ = ({a} : Multiset Player) + ↑(st.teamA.players.set i next) +
              ((↑st.teamB.players : Multiset Player) + ↑rest) := h2.symm
          _ = ({a} : Multiset Player) +
              (↑(st.teamA.players.set i next) + ↑st.teamB.players + ↑rest) := by abel
    | BUMP =>
      refine ⟨fun he => absurd he (by decide), fun _ => ?_⟩
      cases hav : st.availablePlayers with
      | nil =>
        exfalso
        simp only [movePlayer, hk, handleBump] at hsucc
        rw [if_neg (show ¬ i ≥ st.config.maxPlayersPerTeam * 2 by omega), hav] at hsucc
        simp at hsucc
      | cons bump rest =>
        simp only [movePlayer, hk, handleBump]
        rw [if_neg (show ¬ i ≥ st.config.maxPlayersPerTeam * 2 by omega), hav]
        dsimp only
        rw [if_pos hi, haga]
        refine ids_of_players_eq ?_
        rw [playersMultiset_components, playersMultiset_components]
        dsimp only
        rw [hav, ← Multiset.cons_coe, ← Multiset.cons_coe,
          ← Multiset.singleton_add, ← Multiset.singleton_add]
        have h1 := mset_set (a := bump) haga
        rw [← Multiset.singleton_add, ← Multiset.singleton_add] at h1
        have h2 : ({a} : Multiset Player) + ↑(st.teamA.players.set i bump) +
            ((↑st.teamB.players : Multiset Player) + ↑rest) =
            ({bump} : Multiset Player) + ↑st.teamA.players +
            ((↑st.teamB.players : Multiset Player) + ↑rest) := by
          rw [h1]
        calc (↑(st.teamA.players.set i bump) : Multiset Player) + ↑st.teamB.players +
              (({a} : Multiset Player) + ↑rest)
            = ({a} : Multiset Player) + ↑(st.teamA.players.set i bump) +
              ((↑st.teamB.players : Multiset Player) + ↑rest) := by abel
          _ = ({bump} : Multiset Player) + ↑st.teamA.players +
              ((↑st.teamB.players : Multiset Player) + ↑rest) := h2
          _ = (↑st.teamA.players : Multiset Player) + ↑st.teamB.players +
              (({bump} : Multiset Player) + ↑rest) := by abel
    | HORIZONTAL_SWAP =>
      refine ⟨fun he => absurd he (by decide), fun _ => ?_⟩
      obtain ⟨b', hgbi⟩ := get?_of_lt (l := st.teamB.players) (i := i) (hB ▸ hi)
      simp only [movePlayer, hk, handleHorizontalSwap]
      rw [if_neg (show ¬ i ≥ st.config.maxPlayersPerTeam * 2 by omega), if_pos hi,
        haga, hgbi]
      refine ids_of_players_eq ?_
      rw [playersMultiset_components, playersMultiset_components]
      dsimp only
      rw [mset_crossswap haga hgbi]
    | VERTICAL_SWAP =>
      exfalso
      simp only [movePlayer, hk, handleVerticalSwap] at hsucc
      rw [if_pos (Or.inl hi)] at hsucc
      simp at hsucc
  | none =>
  cases hfb : findIdxP pid st.teamB.players with
  | some j =>
    have hj : j < st.config.maxPlayersPerTeam := hB ▸ findIdxP_bound hfb
    obtain ⟨b0, hgb0, hbid⟩ := findIdxP_get hfb
    have hk : findPlayerIndex st pid = some (j + st.config.maxPlayersPerTeam) := by
      unfold findPlayerIndex
      rw [hfa, hfb, hA]
    have hsub : j + st.config.maxPlayersPerTeam - st.config.maxPlayersPerTeam = j := by
      omega
    cases mt with
    | CHECKOUT =>
      refine ⟨fun _ => ?_, fun hne => absurd rfl hne⟩
      cases hav : st.availablePlayers with
      | nil =>
        exfalso
        simp only [movePlayer, hk, handleCheckout] at hsucc
        rw [if_neg (show ¬ j + st.config.maxPlayersPerTeam ≥
          st.config.maxPlayersPerTeam * 2 by omega), hav] at hsucc
        simp at hsucc
      | cons next rest =>
        simp only [movePlayer, hk, handleCheckout]
        rw [if_neg (show ¬ j + st.config.maxPlayersPerTeam ≥
          st.config.maxPlayersPerTeam * 2 by omega), hav]
        dsimp only
        rw [if_neg (show ¬ j + st.config.maxPlayersPerTeam <
            st.config.maxPlayersPerTeam by omega), hsub]
        refine ids_of_players_cons ?_ hbid
        rw [playersMultiset_components, playersMultiset_components]
        dsimp only
        rw [hav, ← Multiset.cons_coe, ← Multiset.singleton_add]
        have h1 := mset_set (a := next) hgb0
        rw [← Multiset.singleton_add, ← Multiset.singleton_add] at h1
        rw [← Multiset.singleton_add]
        have h2 : ({b0} : Multiset Player) + ↑(st.teamB.players.set j next) +
            ((↑st.teamA.players : Multiset Player) + ↑rest) =
            ({next} : Multiset Player) + ↑st.teamB.players +
            ((↑st.teamA.players : Multiset Player) + ↑rest) := by
          rw [h1]
        calc (↑st.teamA.players : Multiset Player) + ↑st.teamB.players +
              (({next} : Multiset Player) + ↑rest)
            = ({next} : Multiset Player) + ↑st.teamB.players +
              ((↑st.teamA.players : Multiset Player) + ↑rest) := by abel
          _ = ({b0} : Multiset Player) + ↑(st.teamB.players.set j next) +
              ((↑st.teamA.players : Multiset Player) + ↑rest) := h2.symm
          _ = ({b0} : Multiset Player) +
              (↑st.teamA.players + ↑(st.teamB.players.set j next) + ↑rest) := by abel
    | BUMP =>
      refine ⟨fun he => absurd he (by decide), fun _ => ?_⟩
      cases hav : st.availablePlayers with
      | nil =>
        exfalso
        simp only [movePlayer, hk, handleBump] at hsucc
        rw [if_neg (show ¬ j + st.config.maxPlayersPerTeam ≥
          st.config.maxPlayersPerTeam * 2 by omega), hav] at hsucc
        simp at hsucc
      | cons bump rest =>
        simp only [movePlayer, hk, handleBump]
        rw [if_neg (show ¬ j + st.config.maxPlayersPerTeam ≥
          st.config.maxPlayersPerTeam * 2 by omega), hav]
        dsimp only
        rw [if_neg (show ¬ j + st.config.maxPlayersPerTeam <
            st.config.maxPlayersPerTeam by omega), hsub, hgb0]
        refine ids_of_players_eq ?_
        rw [playersMultiset_components, playersMultiset_components]
        dsimp only
        rw [hav, ← Multiset.cons_coe, ← Multiset.cons_coe,
          ← Multiset.singleton_add, ← Multiset.singleton_add]
        have h1 := mset_set (a := bump) hgb0
        rw [← Multiset.singleton_add, ← Multiset.singleton_add] at h1
        have h2 : ({b0} : Multiset Player) + ↑(st.teamB.players.set j bump) +
            ((↑st.teamA.players : Multiset Player) + ↑rest) =
            ({bump} : Multiset Player) + ↑st.teamB.players +
            ((↑st.teamA.players : Multiset Player) + ↑rest) := by
          rw [h1]
        calc (↑st.teamA.players : Multiset Player) + ↑(st.teamB.players.set j bump) +
              (({b0} : Multiset Player) + ↑rest)
            = ({b0} : Multiset Player) + ↑(st.teamB.players.set j bump) +
              ((↑st.teamA.players : Multiset Player) + ↑rest) := by abel
          _ = ({bump} : Multiset Player) + ↑st.teamB.players +
              ((↑st.teamA.players : Multiset Player) + ↑rest) := h2
          _ = (↑st.teamA.players : Multiset Player) + ↑st.teamB.players +
              (({bump} : Multiset Player) + ↑rest) := by abel
    | HORIZONTAL_SWAP =>
      refine ⟨fun he => absurd he (by decide), fun _ => ?_⟩
      obtain ⟨a', hgaj⟩ := get?_of_lt (l := st.teamA.players) (i := j) (hA ▸ hj)
      simp only [movePlayer, hk, handleHorizontalSwap]
      rw [if_neg (show ¬ j + st.config.maxPlayersPerTeam ≥
        st.config.maxPlayersPerTeam * 2 by omega),
        if_neg (show ¬ j + st.config.maxPlayersPerTeam <
          st.config.maxPlayersPerTeam by omega), hsub, hgaj, hgb0]
      refine ids_of_players_eq ?_
      rw [playersMultiset_components, playersMultiset_components]
      dsimp only
      rw [mset_crossswap hgaj hgb0]
    | VERTICAL_SWAP =>
      refine ⟨fun he => absurd he (by decide), fun _ => ?_⟩
      have hpos : 0 < st.config.maxPlayersPerTeam := by omega
      obtain ⟨e, hgni⟩ := get?_of_lt (l := st.teamB.players)
        (i := (j + 1) % st.config.maxPlayersPerTeam)
        (by rw [hB]; exact Nat.mod_lt _ hpos)
      simp only [movePlayer, hk, handleVerticalSwap]
      rw [if_neg (show ¬ (j + st.config.maxPlayersPerTeam <
          st.config.maxPlayersPerTeam ∨
          j + st.config.maxPlayersPerTeam ≥ st.config.maxPlayersPerTeam * 2)
        by omega), hsub, hgb0, hgni]
      refine ids_of_players_eq ?_
      rw [playersMultiset_components, playersMultiset_components]
      dsimp only
      rw [mset_swap hgb0 hgni]
  | none =>
    cases hfv : findIdxP pid st.availablePlayers with
    | some v =>
      have hv : v < st.availablePlayers.length := findIdxP_bound hfv
      obtain ⟨c0, hgc0, hcid⟩ := findIdxP_get hfv
      have hk : findPlayerIndex st pid =
          some (v + st.config.maxPlayersPerTeam + st.config.maxPlayersPerTeam) := by
        unfold findPlayerIndex
        rw [hfa, hfb, hfv, hA, hB]
      have hsub2 : v + st.config.maxPlayersPerTeam + st.config.maxPlayersPerTeam -
          st.config.maxPlayersPerTeam * 2 = v := by omega
      have hge : v + st.config.maxPlayersPerTeam + st.config.maxPlayersPerTeam ≥
          st.config.maxPlayersPerTeam * 2 := by omega
      cases mt with
      | CHECKOUT =>
        refine ⟨fun _ => ?_, fun hne => absurd rfl hne⟩
        simp only [movePlayer, hk, handleCheckout]
        rw [if_pos hge, hsub2]
        refine ids_of_players_cons ?_ hcid
        rw [playersMultiset_components, playersMultiset_components]
        dsimp only
        rw [mset_removeAt hgc0, ← Multiset.singleton_add, ← Multiset.singleton_add]
        abel
      | BUMP =>
        refine ⟨fun he => absurd he (by decide), fun _ => ?_⟩
        by_cases hguard : v ≥ st.availablePlayers.length - 1
        · exfalso
          simp only [movePlayer, hk, handleBump] at hsucc
          rw [if_pos hge, hsub2, if_pos hguard] at hsucc
          simp at hsucc
        · have hv1 : v + 1 < st.availablePlayers.length := by omega
          obtain ⟨d, hgd⟩ := get?_of_lt hv1
          simp only [movePlayer, hk, handleBump]
          rw [if_pos hge, hsub2, if_neg hguard, hgc0, hgd]
          refine ids_of_players_eq ?_
          rw [playersMultiset_components, playersMultiset_components]
          dsimp only
          rw [mset_swap hgc0 hgd]
      | HORIZONTAL_SWAP =>
        exfalso
        simp only [movePlayer, hk, handleHorizontalSwap] at hsucc
        rw [if_pos hge] at hsucc
        simp at hsucc
      | VERTICAL_SWAP =>
        exfalso
        simp only [movePlayer, hk, handleVerticalSwap] at hsucc
        rw [if_pos (Or.inr hge)] at hsucc
        simp at hsucc
    | none =>
      exfalso
      have hk : findPlayerIndex st pid = none := by
        unfold findPlayerIndex
        rw [hfa, hfb, hfv]
      simp only [movePlayer, hk] at hsucc
      simp at hsucc

/-- C3 counterexample: CHECKOUT of the next-up player on a full teamSize-1
snapshot succeeds yet removes that player's id from the snapshot, so the
multiset of player ids is not conserved by every successful move. -/
theorem C3_counterexample :
    (movePlayer snapC3 3 MoveType.CHECKOUT).success = true ∧
    idsMultiset (movePlayer snapC3 3 MoveType.CHECKOUT).updatedState ≠
      idsMultiset snapC3 := by
  constructor
  · decide
  · decide

/-- C3 witness: a successful HORIZONTAL_SWAP on a full teamSize-2 snapshot
preserves the id multiset. -/
theorem C3_witness :
    (movePlayer snapH 1 MoveType.HORIZONTAL_SWAP).success = true ∧
    idsMultiset (movePlayer snapH 1 MoveType.HORIZONTAL_SWAP).updatedState =
      idsMultiset snapH :=
  ⟨by decide,
   (C3_conservation_amended snapH 1 MoveType.HORIZONTAL_SWAP (by decide) (by decide)
      (by decide)).2 (by decide)⟩

theorem find?_set_map {l : List GameSetRow} {sid : Nat} {gs : GameSetRow}
    (f : GameSetRow → GameSetRow) (hf : ∀ s, (f s).id = s.id)
    (h : l.find? (fun s => s.id = sid) = some gs) :
    (l.map f).find? (fun s => s.id = sid) = some (f gs) := by
  refine find?_map_pres ?_ h
  intro a
  simp [hf a]

theorem find?_game_map {l : List GameRow} {gid : Nat} {g : GameRow}
    (f : GameRow → GameRow) (hf : ∀ x, (f x).id = x.id)
    (h : l.find? (fun x => x.id = gid) = some g) :
    (l.map f).find? (fun x => x.id = gid) = some (f g) := by
  refine find?_map_pres ?_ h
  intro a
  simp [hf a]

/-- C4 (amended): recording a score with a promotion advances the tail
counter `queueNextUp` by exactly `playersPerTeam` plus one per non-promoted
auto-rejoin player, and leaves the head counter `currentQueuePosition`
unchanged; the head counter advances — by `playersPerTeam * 2` — when a game
is created (`createGame`), not when a score is recorded. -/
theorem C4_counters_amended :
    (∀ (db : DB) (gid : Nat) (t1 t2 : Int) (g : GameRow) (gs : GameSetRow),
      db.games.find? (fun h => h.id = gid) = some g →
      db.gameSets.find? (fun s => s.id = g.setId) = some gs →
      ∃ (db' : DB) (promo : PromotionInfo),
        determinePromotionType (dbAfterScore db gid t1 t2) gid = Except.ok promo ∧
        updateGameScore db gid t1 t2 = Except.ok db' ∧
        db'.gameSets.find? (fun s => s.id = g.setId) = some
          { gs with queueNextUp := gs.queueNextUp + gs.playersPerTeam +
              autoRejoinCount (dbAfterScore db gid t1 t2) gid promo.team } ∧
        (db'.gameSets.find? (fun s => s.id = g.setId)).map
          GameSetRow.currentQueuePosition = some gs.currentQueuePosition) ∧
    (∀ (db : DB) (setId : Nat) (court gstate : String) (nid : Nat) (gs : GameSetRow),
      db.gameSets.find? (fun s => s.id = setId) = some gs →
      ∃ db', createGame db setId court gstate nid = Except.ok db' ∧
        db'.gameSets.find? (fun s => s.id = setId) = some
          { gs with currentQueuePosition :=
              gs.currentQueuePosition + gs.playersPerTeam * 2 }) := by
  constructor
  · intro db gid t1 t2 g gs hg hs
    have hgid : g.id = gid := by
      have := List.find?_some hg
      simpa using this
    have hg2 : (dbAfterScore db gid t1 t2).games.find? (fun h => h.id = gid) =
        some { g with team1Score := some t1, team2Score := some t2, state := "final" } := by
      show (db.games.map (fun h => if h.id = gid then
        { h with team1Score := some t1, team2Score := some t2, state := "final" }
        else h)).find? (fun h => h.id = gid) = _
      rw [find?_game_map _ (fun x => by split <;> rfl) hg, if_pos hgid]
    have hdp : ∃ promo, determinePromotionType (dbAfterScore db gid t1 t2) gid =
        Except.ok promo := by
      unfold determinePromotionType
      rw [hg2]
      dsimp only
      rw [show (dbAfterScore db gid t1 t2).gameSets = db.gameSets from rfl, hs]
      dsimp only
      split
      · exact ⟨_, rfl⟩
      · exact ⟨_, rfl⟩
    obtain ⟨promo, hdp⟩ := hdp
    unfold updateGameScore
    rw [hg]
    dsimp only
    rw [hs]
    dsimp only
    rw [hdp]
    dsimp only
    refine ⟨_, promo, rfl, rfl, ?_, ?_⟩
    · show (((dbAfterScore db gid t1 t2).gameSets.map _).map _).find? _ = _
      rw [show (dbAfterScore db gid t1 t2).gameSets = db.gameSets from rfl]
      rw [find?_set_map _ (fun s => by split <;> rfl)
        (find?_set_map _ (fun s => by split <;> rfl) hs)]
      rw [if_pos rfl]
      dsimp only
      rw [if_pos rfl]
      rfl
    · show ((((dbAfterScore db gid t1 t2).gameSets.map _).map _).find? _).map _ = _
      rw [show (dbAfterScore db gid t1 t2).gameSets = db.gameSets from rfl]
      rw [find?_set_map _ (fun s => by split <;> rfl)
        (find?_set_map _ (fun s => by split <;> rfl) hs)]
      rw [if_pos rfl]
      dsimp only
      rw [if_pos rfl]
      rfl
  · intro db setId court gstate nid gs hset
    have hgsid : gs.id = setId := by
      have := List.find?_some hset
      simpa using this
    unfold createGame
    rw [hset]
    dsimp only
    refine ⟨_, rfl, ?_⟩
    rw [find?_set_map _ (fun s => by split <;> rfl) hset, if_pos hgsid]

/-- C4 counterexample: recording the score of the pending game in `cdb4`
(teamSize 4) leaves the head counter at 1; the claim's "head advances by
exactly teamSize" would require 5. -/
theorem C4_head_counterexample :
    (updateGameScore cdb4 1 15 10).toOption.map
      (fun d => d.gameSets.map GameSetRow.currentQueuePosition) = some [1] ∧
    cdb4.gameSets.map GameSetRow.currentQueuePosition = [1] ∧
    cgs4.playersPerTeam = 4 ∧
    (1 : Nat) ≠ 1 + 4 := by
  refine ⟨by decide, by decide, by decide, by decide⟩

/-- C4 witness: in `cdb4` (tail 9, teamSize 4, one auto-rejoin loser) the
score update moves the tail from 9 to 14 = 9 + 4 + 1 and keeps the head at 1,
while creating a game advances the head from 1 to 9 = 1 + 4 * 2. -/
theorem C4_witness :
    (∃ (db' : DB) (promo : PromotionInfo),
      determinePromotionType (dbAfterScore cdb4 1 15 10) 1 = Except.ok promo ∧
      updateGameScore cdb4 1 15 10 = Except.ok db' ∧
      db'.gameSets.find? (fun s => s.id = cgame4.setId) = some
        { cgs4 with queueNextUp := cgs4.queueNextUp + cgs4.playersPerTeam +
            autoRejoinCount (dbAfterScore cdb4 1 15 10) 1 promo.team } ∧
      (db'.gameSets.find? (fun s => s.id = cgame4.setId)).map
        GameSetRow.currentQueuePosition = some cgs4.currentQueuePosition) ∧
    (∃ db', createGame cdb4 1 "West" "started" 2 = Except.ok db' ∧
      db'.gameSets.find? (fun s => s.id = 1) = some
        { cgs4 with currentQueuePosition :=
            cgs4.currentQueuePosition + cgs4.playersPerTeam * 2 }) :=
  ⟨C4_counters_amended.1 cdb4 1 15 10 cgame4 cgs4 (by decide) (by decide),
   C4_counters_amended.2 cdb4 1 "West" "started" 2 cgs4 (by decide)⟩

theorem findIdxP_none_of_get? {pid : Int} {l : List Player}
    (h : ∀ j x, l.get? j = some x → x.id ≠ pid) : findIdxP pid l = none := by
  rw [findIdxP_none]
  intro a ha
  obtain ⟨j, hj⟩ := List.mem_iff_get?.mp ha
  exact h j a hj

theorem nodup_get?_ne {α : Type} {l : List α} (hnd : l.Nodup) {i j : Nat} {x y : α}
    (hx : l.get? i = some x) (hy : l.get? j = some y) (hij : i ≠ j) : x ≠ y := by
  obtain ⟨hi, hxg⟩ := List.get?_eq_some.mp hx
  obtain ⟨hj, hyg⟩ := List.get?_eq_some.mp hy
  intro hxy
  apply hij
  have hfin : (⟨i, hi⟩ : Fin l.length) = ⟨j, hj⟩ := by
    rw [← hnd.get_inj_iff, hxg, hyg, hxy]
  exact congrArg Fin.val hfin

theorem get?_set_self {α : Type} {l : List α} {i : Nat} {a b : α}
    (h : l.get? i = some a) : (l.set i b).get? i = some b := by
  rw [List.get?_set, if_pos rfl, h]
  rfl

theorem get?_set_other {α : Type} {l : List α} {i j : Nat} {b : α} (hij : i ≠ j) :
    (l.set i b).get? j = l.get? j := by
  rw [List.get?_set, if_neg hij]

/-- C8: HORIZONTAL_SWAP is self-inverse — on a full snapshot with pairwise
distinct team ids, swapping a Team A (resp. Team B) player at slot `i` and
then swapping the player now occupying that slot restores both teams'
original compositions. -/
theorem C8_horizontal_swap_self_inverse :
    (∀ (st : GameState) (pid : Int) (i : Nat),
      st.teamA.players.length = st.config.maxPlayersPerTeam →
      st.teamB.players.length = st.config.maxPlayersPerTeam →
      ((st.teamA.players ++ st.teamB.players).map Player.id).Nodup →
      findIdxP pid st.teamA.players = some i →
      (movePlayer st pid MoveType.HORIZONTAL_SWAP).success = true ∧
      (∀ q, (movePlayer st pid MoveType.HORIZONTAL_SWAP).updatedState.teamA.players.get? i
          = some q →
        (movePlayer (movePlayer st pid MoveType.HORIZONTAL_SWAP).updatedState q.id
          MoveType.HORIZONTAL_SWAP).success = true ∧
        (movePlayer (movePlayer st pid MoveType.HORIZONTAL_SWAP).updatedState q.id
          MoveType.HORIZONTAL_SWAP).updatedState.teamA.players = st.teamA.players ∧
        (movePlayer (movePlayer st pid MoveType.HORIZONTAL_SWAP).updatedState q.id
          MoveType.HORIZONTAL_SWAP).updatedState.teamB.players = st.teamB.players)) ∧
    (∀ (st : GameState) (pid : Int) (i : Nat),
      st.teamA.players.length = st.config.maxPlayersPerTeam →
      st.teamB.players.length = st.config.maxPlayersPerTeam →
      ((st.teamA.players ++ st.teamB.players).map Player.id).Nodup →
      findIdxP pid st.teamA.players = none →
      findIdxP pid st.teamB.players = some i →
      (movePlayer st pid MoveType.HORIZONTAL_SWAP).success = true ∧
      (∀ q, (movePlayer st pid MoveType.HORIZONTAL_SWAP).updatedState.teamB.players.get? i
          = some q →
        (movePlayer (movePlayer st pid MoveType.HORIZONTAL_SWAP).updatedState q.id
          MoveType.HORIZONTAL_SWAP).success = true ∧
        (movePlayer (movePlayer st pid MoveType.HORIZONTAL_SWAP).updatedState q.id
          MoveType.HORIZONTAL_SWAP).updatedState.teamA.players = st.teamA.players ∧
        (movePlayer (movePlayer st pid MoveType.HORIZONTAL_SWAP).updatedState q.id
          MoveType.HORIZONTAL_SWAP).updatedState.teamB.players = st.teamB.players)) := by
  constructor
  · intro st pid i hA hB hnd hfa
    rw [List.map_append, List.nodup_append] at hnd
    obtain ⟨hndA, hndB, hdisj⟩ := hnd
    have hi : i < st.config.maxPlayersPerTeam := hA ▸ findIdxP_bound hfa
    obtain ⟨a, haga, haid⟩ := findIdxP_get hfa
    obtain ⟨b, hgbi⟩ := get?_of_lt (l := st.teamB.players) (i := i) (by rw [hB]; exact hi)
    have hk : findPlayerIndex st pid = some i := by
      unfold findPlayerIndex
      rw [hfa]
    have hres1 : movePlayer st pid MoveType.HORIZONTAL_SWAP =
        { success := true, message := none,
          updatedState := { st with
            teamA := { st.teamA with players := st.teamA.players.set i b, ogCount := countOGPlayers (st.teamA.players.set i b) }
            teamB := { st.teamB with players := st.teamB.players.set i a, ogCount := countOGPlayers (st.teamB.players.set i a) } } } := by
      simp only [movePlayer, hk, handleHorizontalSwap]
      rw [if_neg (show ¬ i ≥ st.config.maxPlayersPerTeam * 2 by omega), if_pos hi,
        haga, hgbi]
    rw [hres1]
    dsimp only
    refine ⟨rfl, ?_⟩
    intro q hq
    have hq' : (st.teamA.players.set i b).get? i = some b := get?_set_self haga
    rw [hq'] at hq
    cases hq
    have hfa2 : findIdxP b.id (st.teamA.players.set i b) = some i := by
      refine findIdxP_some_of hq' rfl ?_
      intro j hj x hx
      rw [get?_set_other (show i ≠ j by omega)] at hx
      intro he
      exact hdisj (List.mem_map_of_mem Player.id (List.get?_mem hx))
        (by rw [he]; exact List.mem_map_of_mem Player.id (List.get?_mem hgbi))
    have hk2 : findPlayerIndex
        { st with
          teamA := { st.teamA with players := st.teamA.players.set i b, ogCount := countOGPlayers (st.teamA.players.set i b) }
          teamB := { st.teamB with players := st.teamB.players.set i a, ogCount := countOGPlayers (st.teamB.players.set i a) } } b.id = some i := by
      unfold findPlayerIndex
      dsimp only
      rw [hfa2]
    have hgB1 : (st.teamB.players.set i a).get? i = some a := get?_set_self hgbi
    simp only [movePlayer, hk2, handleHorizontalSwap]
    rw [if_neg (show ¬ i ≥ st.config.maxPlayersPerTeam * 2 by omega), if_pos hi,
      hq', hgB1]
    refine ⟨rfl, ?_, ?_⟩
    · show (st.teamA.players.set i b).set i a = st.teamA.players
      rw [List.set_set, set_get?_self haga]
    · show (st.teamB.players.set i a).set i b = st.teamB.players
      rw [List.set_set, set_get?_self hgbi]
  · intro st pid i hA hB hnd hfa hfb
    rw [List.map_append, List.nodup_append] at hnd
    obtain ⟨hndA, hndB, hdisj⟩ := hnd
    have hi : i < st.config.maxPlayersPerTeam := hB ▸ findIdxP_bound hfb
    obtain ⟨b0, hgb0, hb0id⟩ := findIdxP_get hfb
    obtain ⟨a, hgai⟩ := get?_of_lt (l := st.teamA.players) (i := i) (by rw [hA]; exact hi)
    have hk : findPlayerIndex st pid = some (i + st.config.maxPlayersPerTeam) := by
      unfold findPlayerIndex
      rw [hfa, hfb, hA]
    have hsub : i + st.config.maxPlayersPerTeam - st.config.maxPlayersPerTeam = i := by
      omega
    have hres1 : movePlayer st pid MoveType.HORIZONTAL_SWAP =
        { success := true, message := none,
          updatedState := { st with
            teamA := { st.teamA with players := st.teamA.players.set i b0, ogCount := countOGPlayers (st.teamA.players.set i b0) }
            teamB := { st.teamB with players := st.teamB.players.set i a, ogCount := countOGPlayers (st.teamB.players.set i a) } } } := by
      simp only [movePlayer, hk, handleHorizontalSwap]
      rw [if_neg (show ¬ i + st.config.maxPlayersPerTeam ≥
          st.config.maxPlayersPerTeam * 2 by omega),
        if_neg (show ¬ i + st.config.maxPlayersPerTeam <
          st.config.maxPlayersPerTeam by omega), hsub, hgai, hgb0]
    rw [hres1]
    dsimp only
    refine ⟨rfl, ?_⟩
    intro q hq
    have hqB : (st.teamB.players.set i a).get? i = some a := get?_set_self hgb0
    rw [hqB] at hq
    cases hq
    have hfa2 : findIdxP a.id (st.teamA.players.set i b0) = none := by
      refine findIdxP_none_of_get? ?_
      intro j x hx
      by_cases hji : j = i
      · subst hji
        rw [get?_set_self hgai] at hx
        cases hx
        intro he
        exact hdisj (List.mem_map_of_mem Player.id (List.get?_mem hgai))
          (by rw [← he]; exact List.mem_map_of_mem Player.id (List.get?_mem hgb0))
      · rw [get?_set_other (fun h => hji h.symm)] at hx
        have hmapj : (st.teamA.players.map Player.id).get? j = some x.id := by
          rw [List.get?_map, hx]
          rfl
        have hmapi : (st.teamA.players.map Player.id).get? i = some a.id := by
          rw [List.get?_map, hgai]
          rfl
        exact nodup_get?_ne hndA hmapj hmapi hji
    have hfb2 : findIdxP a.id (st.teamB.players.set i a) = some i := by
      refine findIdxP_some_of hqB rfl ?_
      intro j hj x hx
      rw [get?_set_other (show i ≠ j by omega)] at hx
      intro he
      exact hdisj (a := x.id)
        (by rw [he]; exact List.mem_map_of_mem Player.id (List.get?_mem hgai))
        (List.mem_map_of_mem Player.id (List.get?_mem hx))
    have hk2 : findPlayerIndex
        { st with
          teamA := { st.teamA with players := st.teamA.players.set i b0, ogCount := countOGPlayers (st.teamA.players.set i b0) }
          teamB := { st.teamB with players := st.teamB.players.set i a, ogCount := countOGPlayers (st.teamB.players.set i a) } } a.id =
        some (i + st.config.maxPlayersPerTeam) := by
      unfold findPlayerIndex
      dsimp only
      rw [hfa2, hfb2, List.length_set, hA]
    have hqA1 : (st.teamA.players.set i b0).get? i = some b0 := get?_set_self hgai
    simp only [movePlayer, hk2, handleHorizontalSwap]
    rw [if_neg (show ¬ i + st.config.maxPlayersPerTeam ≥
        st.config.maxPlayersPerTeam * 2 by omega),
      if_neg (show ¬ i + st.config.maxPlayersPerTeam <
        st.config.maxPlayersPerTeam by omega), hsub, hqA1, hqB]
    refine ⟨rfl, ?_, ?_⟩
    · show (st.teamA.players.set i b0).set i a = st.teamA.players
      rw [List.set_set, set_get?_self hgai]
    · show (st.teamB.players.set i a).set i b0 = st.teamB.players
      rw [List.set_set, set_get?_self hgb0]

/-- C8 witness: on the full teamSize-2 snapshot, swapping player 1 (Team A
slot 0) with Team B slot 0 and then swapping the new occupant (player 3)
restores both teams. -/
theorem C8_witness :
    (movePlayer snapH 1 MoveType.HORIZONTAL_SWAP).success = true ∧
    (movePlayer (movePlayer snapH 1 MoveType.HORIZONTAL_SWAP).updatedState (mkP 3).id
      MoveType.HORIZONTAL_SWAP).updatedState.teamA.players = snapH.teamA.players ∧
    (movePlayer (movePlayer snapH 1 MoveType.HORIZONTAL_SWAP).updatedState (mkP 3).id
      MoveType.HORIZONTAL_SWAP).updatedState.teamB.players = snapH.teamB.players := by
  have h := (C8_horizontal_swap_self_inverse.1 snapH 1 0 (by decide) (by decide)
    (by decide) (by decide))
  have h2 := h.2 (mkP 3) (by decide)
  exact ⟨h.1, h2.2.1, h2.2.2⟩

theorem vswap_step {st : GameState} {pid : Int} {i : Nat}
    (hA : st.teamA.players.length = st.config.maxPlayersPerTeam)
    (hB : st.teamB.players.length = st.config.maxPlayersPerTeam)
    (hpA : ∀ p ∈ st.teamA.players, p.id ≠ pid)
    (hu : uniqueAt st.teamB.players pid i) :
    (movePlayer st pid MoveType.VERTICAL_SWAP).success = true ∧
    (movePlayer st pid MoveType.VERTICAL_SWAP).updatedState.config = st.config ∧
    (movePlayer st pid MoveType.VERTICAL_SWAP).updatedState.teamA.players =
      st.teamA.players ∧
    (movePlayer st pid MoveType.VERTICAL_SWAP).updatedState.teamB.players.length =
      st.config.maxPlayersPerTeam ∧
    uniqueAt (movePlayer st pid MoveType.VERTICAL_SWAP).updatedState.teamB.players pid
      ((i + 1) % st.config.maxPlayersPerTeam) := by
  obtain ⟨hgB, hothers⟩ := hu
  cases hgot : st.teamB.players.get? i with
  | none =>
    rw [hgot] at hgB
    simp at hgB
  | some b0 =>
  rw [hgot] at hgB
  have hb0 : b0.id = pid := by simpa using hgB
  have hi : i < st.config.maxPlayersPerTeam := by
    obtain ⟨hlt, _⟩ := List.get?_eq_some.mp hgot
    omega
  have hn0 : 0 < st.config.maxPlayersPerTeam := by omega
  have hni : (i + 1) % st.config.maxPlayersPerTeam < st.config.maxPlayersPerTeam :=
    Nat.mod_lt _ hn0
  obtain ⟨b1, hgot1⟩ := get?_of_lt (l := st.teamB.players)
    (i := (i + 1) % st.config.maxPlayersPerTeam) (by rw [hB]; exact hni)
  have hki : findIdxP pid st.teamB.players = some i := by
    refine findIdxP_some_of hgot hb0 ?_
    intro j hj x hx
    intro he
    refine hothers j (by omega) (by omega) ?_
    rw [hx, Option.map_some', he]
  have hkA : findIdxP pid st.teamA.players = none := findIdxP_none.mpr hpA
  have hk : findPlayerIndex st pid = some (i + st.config.maxPlayersPerTeam) := by
    unfold findPlayerIndex
    rw [hkA, hki, hA]
  have hsub : i + st.config.maxPlayersPerTeam - st.config.maxPlayersPerTeam = i := by
    omega
  have hres : movePlayer st pid MoveType.VERTICAL_SWAP =
      { success := true, message := none,
        updatedState := { st with
          teamB := { st.teamB with
            players := (st.teamB.players.set i b1).set
              ((i + 1) % st.config.maxPlayersPerTeam) b0, ogCount := countOGPlayers ((st.teamB.players.set i b1).set ((i + 1) % st.config.maxPlayersPerTeam) b0) } } } := by
    simp only [movePlayer, hk, handleVerticalSwap]
    rw [if_neg (show ¬ (i + st.config.maxPlayersPerTeam <
        st.config.maxPlayersPerTeam ∨
        i + st.config.maxPlayersPerTeam ≥ st.config.maxPlayersPerTeam * 2) by omega),
      hsub, hgot, hgot1]
  rw [hres]
  dsimp only
  have hmid : (st.teamB.players.set i b1).get?
      ((i + 1) % st.config.maxPlayersPerTeam) = some b1 := by
    by_cases hie : i = (i + 1) % st.config.maxPlayersPerTeam
    · rw [← hie]
      exact get?_set_self hgot
    · rw [get?_set_other hie]
      exact hgot1
  refine ⟨rfl, rfl, rfl, by rw [List.length_set, List.length_set, hB], ?_, ?_⟩
  · rw [get?_set_self hmid, Option.map_some', hb0]
  · intro j hjlen hjni
    rw [List.length_set, List.length_set, hB] at hjlen
    by_cases hji : j = i
    · rw [hji]
      have hine : (i + 1) % st.config.maxPlayersPerTeam ≠ i :=
        fun h => hjni (hji.trans h.symm)
      rw [get?_set_other hine, get?_set_self hgot, Option.map_some']
      have hne := hothers ((i + 1) % st.config.maxPlayersPerTeam)
        (by rw [hB]; exact hni) hine
      rw [hgot1, Option.map_some'] at hne
      simpa using hne
    · have hine : (i + 1) % st.config.maxPlayersPerTeam ≠ j := fun h => hjni h.symm
      have hine2 : i ≠ j := fun h => hji h.symm
      rw [get?_set_other hine, get?_set_other hine2]
      exact hothers j (by omega) hji

theorem vswap_iter_inv {pid : Int} :
    ∀ (k : Nat) (st : GameState) (i : Nat),
      st.teamA.players.length = st.config.maxPlayersPerTeam →
      st.teamB.players.length = st.config.maxPlayersPerTeam →
      (∀ p ∈ st.teamA.players, p.id ≠ pid) →
      uniqueAt st.teamB.players pid i →
      i < st.config.maxPlayersPerTeam →
      (vswapIter st pid k).config = st.config ∧
      uniqueAt (vswapIter st pid k).teamB.players pid
        ((i + k) % st.config.maxPlayersPerTeam) := by
  intro k
  induction k with
  | zero =>
    intro st i hA hB hpA hu hi
    refine ⟨rfl, ?_⟩
    show uniqueAt st.teamB.players pid ((i + 0) % st.config.maxPlayersPerTeam)
    rw [Nat.add_zero, Nat.mod_eq_of_lt hi]
    exact hu
  | succ k ih =>
    intro st i hA hB hpA hu hi
    obtain ⟨hsucc, hcfg, hAeq, hlenB, hu1⟩ := vswap_step hA hB hpA hu
    have hn0 : 0 < st.config.maxPlayersPerTeam := by omega
    have hstep := ih (movePlayer st pid MoveType.VERTICAL_SWAP).updatedState
      ((i + 1) % st.config.maxPlayersPerTeam)
      (by rw [hAeq, hcfg]; exact hA) (by rw [hcfg]; exact hlenB)
      (by rw [hAeq]; exact hpA) hu1 (by rw [hcfg]; exact Nat.mod_lt _ hn0)
    rw [hcfg] at hstep
    have harith : ((i + 1) % st.config.maxPlayersPerTeam + k) %
        st.config.maxPlayersPerTeam = (i + (k + 1)) % st.config.maxPlayersPerTeam := by
      rw [Nat.mod_add_mod]
      congr 1
      omega
    rw [harith] at hstep
    exact hstep

/-- C5 (amended): applying VERTICAL_SWAP `teamSize` times, re-locating a
fixed player id before each application, returns that player to its original
Team B slot (on a full snapshot where the id occurs exactly once in Team B and
not in Team A); the full Team B order is not restored in general, as the
counterexample shows. -/
theorem C5_vertical_swap_cycle_amended :
    ∀ (st : GameState) (pid : Int) (i : Nat),
      st.teamA.players.length = st.config.maxPlayersPerTeam →
      st.teamB.players.length = st.config.maxPlayersPerTeam →
      (∀ p ∈ st.teamA.players, p.id ≠ pid) →
      uniqueAt st.teamB.players pid i →
      uniqueAt (vswapIter st pid st.config.maxPlayersPerTeam).teamB.players pid i := by
  intro st pid i hA hB hpA hu
  have hi : i < st.config.maxPlayersPerTeam := by
    obtain ⟨hgB, _⟩ := hu
    cases hgot : st.teamB.players.get? i with
    | none =>
      rw [hgot] at hgB
      simp at hgB
    | some b0 =>
      obtain ⟨hlt, _⟩ := List.get?_eq_some.mp hgot
      omega
  have h := (vswap_iter_inv st.config.maxPlayersPerTeam st i hA hB hpA hu hi).2
  rw [Nat.add_mod_right, Nat.mod_eq_of_lt hi] at h
  exact h

/-- C5 counterexample: on the full teamSize-3 snapshot, three VERTICAL_SWAP
applications tracking player 4 all succeed, yet Team B ends as [4, 6, 5]
instead of its original order [4, 5, 6]. -/
theorem C5_counterexample :
    snapC5.config.maxPlayersPerTeam = 3 ∧
    (movePlayer snapC5 4 MoveType.VERTICAL_SWAP).success = true ∧
    (movePlayer (movePlayer snapC5 4 MoveType.VERTICAL_SWAP).updatedState 4
      MoveType.VERTICAL_SWAP).success = true ∧
    (movePlayer (movePlayer (movePlayer snapC5 4
      MoveType.VERTICAL_SWAP).updatedState 4 MoveType.VERTICAL_SWAP).updatedState 4
      MoveType.VERTICAL_SWAP).success = true ∧
    (vswapIter snapC5 4 3).teamB.players.map Player.id = [4, 6, 5] ∧
    (vswapIter snapC5 4 3).teamB.players ≠ snapC5.teamB.players := by
  refine ⟨by decide, by decide, by decide, by decide, by decide, by decide⟩

/-- C5 witness: on the same snapshot the amended statement holds — after
teamSize applications player 4 is back at Team B slot 0. -/
theorem C5_witness :
    uniqueAt (vswapIter snapC5 4 snapC5.config.maxPlayersPerTeam).teamB.players 4 0 :=
  C5_vertical_swap_cycle_amended snapC5 4 0 (by decide) (by decide)
    (by decide) ⟨by decide, by decide⟩

/-- C7 witness: the concrete queue of 10 checkins with teamSize 4. -/
theorem C7_witness :
    ∃ st, populateGame (some 4) cCheckins10 = Except.ok st ∧
      st.teamA.players.length = 4 ∧
      st.teamB.players.length = 4 ∧
      st.availablePlayers.length = 2 ∧
      (∀ i, i < 4 → st.teamA.players.get? i = (cCheckins10.get? i).map toAssignedPlayer) ∧
      (∀ i, i < 4 →
        st.teamB.players.get? i = (cCheckins10.get? (4 + i)).map toAssignedPlayer) ∧
      (∀ j, j < 2 → st.availablePlayers.get? j =
        (cCheckins10.get? (8 + j)).map toAvailablePlayer) :=
  C7_populate_scenario cCheckins10 (by decide)

end Scoot
